import Mathlib

/-!
Verification development for the agreement-attraction sentence-transformation
core (`src/core/spacyutils.py`, `src/core/constants.py`,
`src/core/language_funs/language_funs.py`,
`src/core/language_funs/en/grammar_funs.py`).

The embedding is shallow and executable:

* A `Tok` mirrors the editable attribute record of `EToken` (the view of a
  parsed token after construction-time corrections): position `i`, `text`,
  `whitespace_`, `tag_`, `pos_`, the morphological feature mapping `morph`,
  `lemma_`, `dep_`, the head position `head` (spaCy stores the head as an
  object reference; we store its index, with the root pointing at itself),
  the optional `head_i` override attribute used by the editing layer,
  `is_sent_start` and `ent_iob_`.  `EToken.__init__` applies the
  deterministic per-token corrections (`WRONG_LEMMAS`, `INCORRECT_MORPHS`,
  `_format_token`) when a token is first read out of the parser; the tokens
  of an embedded document are these corrected views, so token reads are the
  identity here, and every concrete document used below is a fixed point of
  those corrections.
* An `EDoc` is the token sequence plus the `previous` back-reference that
  forms the copy-on-write history chain.  The audit-trail strings derived
  from stack introspection (`caller`, `caller_args`) carry no program logic
  and are not modelled.
* Python functions that can raise are embedded in `Exc := Except String`;
  a `.error` result models an uncaught Python exception, and `Option`
  inside the payload models a Python `None` result.  Unbounded `while`
  loops and recursion through the head/conjunct graph are given explicit
  fuel; fuel exhaustion is an `.error`, matching the absence of a returned
  value.  External `pattern.en` functions (`conjugate`, `singularize`,
  `pluralize`) are out of scope of the repository and enter as an explicit
  `Ext` record of collaborator functions.
-/

namespace AgrAttr

/-- The editable token record of `EToken` (spacyutils.py lines 57-126). -/
structure Tok where
  i : Nat
  text : String
  whitespace_ : String
  tag_ : String
  pos_ : String
  morph : List (String × String)
  lemma_ : String
  dep_ : String
  head : Nat
  head_i : Option Nat := none
  is_sent_start : Bool := false
  ent_iob_ : String := ""
deriving Repr, DecidableEq, Inhabited

/-- An `EDoc`: the token sequence plus the `previous` history pointer. -/
inductive EDoc where
  | mk (toks : List Tok) (previous : Option EDoc)
deriving Inhabited

/-- The token sequence of a document. -/
def EDoc.toks : EDoc → List Tok
  | .mk ts _ => ts

/-- The `previous` back-reference of a document. -/
def EDoc.previous : EDoc → Option EDoc
  | .mk _ p => p

/-- Errors are modelled as messages; `Exc` is the effect of Python code
that can raise. -/
abbrev Exc (α : Type) : Type := Except String α

/-- Python `self[n]` on a document: `IndexError` when out of range
(non-negative indices only; no claim exercises negative indexing). -/
def pyTok (d : EDoc) (n : Nat) : Exc Tok :=
  match d.toks.get? n with
  | some t => .ok t
  | none => .error "IndexError: token index out of range"

/-- Python `lst[n]` on a list. -/
def pyNth (l : List α) (n : Nat) : Exc α :=
  match l.get? n with
  | some x => .ok x
  | none => .error "IndexError: list index out of range"

/-- Character-list-based string helpers: Python string methods realized
over the underlying character sequence (ASCII semantics), so that every
theorem below evaluates by kernel reduction. -/
def strTail (s : String) : String := String.mk (s.data.drop 1)

/-- Python `s.startswith(p)`. -/
def pyStartsWith (s p : String) : Bool := p.data.isPrefixOf s.data

/-- Python `s.endswith(p)`. -/
def pyEndsWith (s p : String) : Bool := p.data.isSuffixOf s.data

/-- Python `s.lower()` (ASCII). -/
def pyLower (s : String) : String := String.mk (s.data.map Char.toLower)

/-- Effectful map over a list (Python list comprehension with a possibly
raising body; first raise wins). -/
def excMapM (f : α → Exc β) : List α → Exc (List β)
  | [] => .ok []
  | a :: as => do pure ((← f a) :: (← excMapM f as))

/-- Short-circuiting `any` with a possibly raising predicate. -/
def excAnyM (f : α → Exc Bool) : List α → Exc Bool
  | [] => .ok false
  | a :: as => do
    if ← f a then pure true else excAnyM f as

/-- Python `lst[n] = x`: in-place write, `IndexError` when out of range. -/
def pySet (l : List α) (n : Nat) (x : α) : Exc (List α) :=
  if n < l.length then .ok (l.set n x) else .error "IndexError: list assignment index out of range"

/-- The plain-text rendering of a document
(`EDoc.__unicode__`: concatenation of token text and trailing whitespace). -/
def renderDoc (d : EDoc) : String :=
  String.join (d.toks.map (fun t => t.text ++ t.whitespace_))

/-! ### Constants from `src/core/constants.py` (logic-bearing tables).
`pattern.en` exposes `SG = "singular"`, `PL = "plural"`, `PAST = "past"`,
`PRESENT = "present"`, `INFINITIVE = "infinitive"`; the string constants
are inlined accordingly. -/

def SG : String := "singular"
def PL : String := "plural"
def PAST : String := "past"
def PRESENT : String := "present"
def INFINITIVE : String := "infinitive"

def SUBJ_DEPS : List String := ["csubj", "csubjpass", "attr", "nsubj", "nsubjpass", "expl"]

def OBJ_DEPS : List String := ["cobj", "nobj", "dobj"]

def DET_TAGS : List String := ["DT", "JJ", "JJR", "CD"]

def NOUN_POS_TAGS : List String := ["NOUN", "PRON", "PROPN"]

def NUMBER_MAP : List (String × String) :=
  [("Singular", SG), ("singular", SG), ("Sing", SG), ("sing", SG),
   ("SG", SG), ("Sg", SG), ("sg", SG),
   ("Plural", PL), ("plural", PL), ("Plur", PL), ("plur", PL),
   ("PL", PL), ("Pl", PL), ("pl", PL)]

def TENSE_MAP : List (String × String) :=
  [("PAST", PAST), ("Past", PAST), ("past", PAST), ("PST", PAST), ("Pst", PAST), ("pst", PAST),
   ("PRESENT", PRESENT), ("Present", PRESENT), ("present", PRESENT),
   ("PRES", PRESENT), ("Pres", PRESENT), ("pres", PRESENT),
   ("INF", INFINITIVE), ("Inf", INFINITIVE), ("inf", INFINITIVE),
   ("INFINITIVE", INFINITIVE), ("Infinitive", INFINITIVE), ("infinitive", INFINITIVE)]

/-- `dict.get`: association-list lookup. -/
def dget (l : List (String × String)) (k : String) : Option String :=
  (l.find? (fun p => p.1 = k)).map (·.2)

def SINGULARIZE_MAP : List (String × String) :=
  [("these", "this"), ("those", "that"), ("all", "every")]

def PLURALIZE_MAP : List (String × String) := [("the", "the")]

def AMOD_DETERMINERS : List String := ["many", "Many", "few", "Few", "fewer", "Fewer"]

def PARTITIVES_P_MAP : List (String × List String) :=
  [("latest", ["in", "of"]), ("newest", ["in", "of"]), ("recent", ["in", "of"])]

/-- `PARTITIVES_P_MAP.get(key, default)`. -/
def pmapGet (k : String) (dflt : List String) : List String :=
  ((PARTITIVES_P_MAP.find? (fun p => p.1 = k)).map (·.2)).getD dflt

def PARTITIVES_WITH_P : List String :=
  ["Some", "some", "Any", "any", "latest", "newest", "recent"]

def PARTITIVES_OPTIONAL_P : List String :=
  ["All", "all", "Half", "half", "Most", "most", "More", "more",
   "First", "first", "Last", "last", "Any", "any", "Enough", "enough"]

def PARTITIVES_WITH_INDEFINITE_ONLY : List String :=
  ["amount", "group", "lot", "number", "quantity", "ton", "series", "array"]

def ALL_PARTITIVES : List String :=
  PARTITIVES_WITH_P ++ PARTITIVES_OPTIONAL_P ++ PARTITIVES_WITH_INDEFINITE_ONLY

def VERB_PREFIXES : List String := ["co"]

def INFLECTED_AUXES : List String := ["be", "have", "get", "do"]

def NUMBERS_FOR_ADJECTIVES_USED_AS_NOUNS : List (String × String) :=
  [("needy", "Plur"), ("disabled", "Plur"), ("poor", "Plur"), ("final", "Sing"),
   ("other", "Sing"), ("French", "Plur"), ("straight", "Sing"), ("secondary", "Sing"),
   ("young", "Plur"), ("moneyed", "Plur"), ("ceramic", "Sing"), ("occult", "Sing"),
   ("fundamental", "Sing"), ("wounded", "Plur"), ("bankrupt", "Plur"), ("common", "Sing"),
   ("tributary", "Sing"), ("unemployed", "Plur"), ("infected", "Plur"),
   ("programming", "Sing"), ("dead", "Plur"), ("faithful", "Plur")]

/-- `LOOK_FOR_SUBJECTS_LIMIT` (spacyutils.py line 32). -/
def LOOK_FOR_SUBJECTS_LIMIT : Nat := 10

/-! ### Large lexical tables, transcribed from `src/core/constants.py` and
`src/core/language_funs/en/grammar_funs.py`.  `CONJUGATE_MAP` keeps the
source nesting surface-form → number-bucket → tense → form (including the
source typo of a `plural` tense key under `paralleled`).  The pure string
sets are stored sorted; only membership is ever consulted. -/

def CONJUGATE_MAP : List (String × List (String × List (String × String))) := [
  ("founded", [("singular", [("present", "founds")]), ("plural", [("present", "found")]), ("any", [("past", "founded")])]),
  ("founds", [("singular", [("present", "founds")]), ("plural", [("present", "found")]), ("any", [("past", "founded"), ("infinitive", "found")])]),
  ("leaves", [("any", [("past", "left")])]),
  ("leave", [("any", [("past", "left")])]),
  ("left", [("singular", [("present", "leaves")]), ("plural", [("present", "leave")]), ("any", [("infinitive", "leave")])]),
  ("bears", [("any", [("past", "bore")])]),
  ("bear", [("any", [("past", "bore")])]),
  ("bore", [("singular", [("present", "bears")]), ("plural", [("present", "bear")])]),
  ("sang", [("singular", [("present", "sings")]), ("plural", [("present", "sing")]), ("any", [("past", "sang"), ("infinitive", "sang")])]),
  ("sing", [("any", [("past", "sang")])]),
  ("sings", [("any", [("past", "sang")])]),
  ("lay", [("singular", [("present", "lays")]), ("plural", [("present", "lay")]), ("any", [("past", "laid")])]),
  ("lays", [("singular", [("present", "lays")]), ("plural", [("present", "lay")]), ("any", [("past", "laid"), ("infinitive", "lay")])]),
  ("laid", [("singular", [("present", "lays")]), ("plural", [("present", "lay")]), ("any", [("past", "laid"), ("infinitive", "lay")])]),
  ("escapes", [("any", [("past", "escaped")])]),
  ("escape", [("any", [("past", "escaped")])]),
  ("escaped", [("singular", [("present", "escapes")]), ("plural", [("present", "escape")]), ("any", [("past", "escaped"), ("infinitive", "escape")])]),
  ("paid", [("singular", [("present", "pays")]), ("plural", [("present", "pay")]), ("any", [("past", "paid"), ("infinitive", "pay")])]),
  ("pay", [("any", [("past", "paid")])]),
  ("pays", [("any", [("past", "paid")])]),
  ("centered", [("any", [("past", "centered")])]),
  ("center", [("any", [("past", "centered")])]),
  ("centers", [("any", [("past", "centered")])]),
  ("quitted", [("any", [("past", "quit")])]),
  ("quit", [("any", [("past", "quit")])]),
  ("quits", [("any", [("past", "quit")])]),
  ("addressed", [("any", [("past", "addressed")])]),
  ("address", [("any", [("past", "addressed")])]),
  ("addresses", [("any", [("past", "addressed")])]),
  ("Addressed", [("any", [("past", "addressed")])]),
  ("Address", [("any", [("past", "addressed")])]),
  ("Addresses", [("any", [("past", "addressed")])]),
  ("paralleled", [("singular", [("present", "parallels")]), ("plural", [("plural", "parallel")]), ("any", [("infinitive", "parallel")])]),
  ("parallel", [("any", [("past", "paralleled")])]),
  ("parallels", [("any", [("past", "paralleled")])]),
  ("sank", [("singular", [("present", "sinks")]), ("plural", [("present", "sink")]), ("any", [("past", "sank"), ("infinitive", "sink")])]),
  ("sink", [("any", [("past", "sank")])]),
  ("sinks", [("any", [("past", "sank")])]),
  ("penned", [("any", [("past", "penned")])]),
  ("pen", [("any", [("past", "penned")])]),
  ("pens", [("any", [("past", "penned")])]),
  ("pleaded", [("any", [("past", "pleaded")])]),
  ("plead", [("any", [("past", "pleaded")])]),
  ("pleads", [("any", [("past", "pleaded")])]),
  ("cursed", [("any", [("past", "cursed")])]),
  ("curse", [("any", [("past", "cursed")])]),
  ("curses", [("any", [("past", "cursed")])]),
  ("sprang", [("singular", [("present", "springs")]), ("plural", [("present", "spring")]), ("any", [("past", "sprang"), ("infinitive", "spring")])]),
  ("spring", [("any", [("past", "sprang")])]),
  ("springs", [("any", [("past", "sprang")])]),
  ("swapped", [("any", [("past", "swapped")])]),
  ("swap", [("any", [("past", "swapped")])]),
  ("swaps", [("any", [("past", "swapped")])]),
  ("favored", [("singular", [("present", "favors")]), ("plural", [("present", "favor")]), ("any", [("infinitive", "favor")])]),
  ("favor", [("any", [("past", "favored")])]),
  ("favors", [("any", [("past", "favored")])]),
  ("blessed", [("any", [("past", "blessed")])]),
  ("bless", [("any", [("past", "blessed")])]),
  ("blesses", [("any", [("past", "blessed")])]),
  ("brokered", [("any", [("past", "brokered")])]),
  ("broker", [("any", [("past", "brokered")])]),
  ("brokers", [("any", [("past", "brokered")])]),
  ("endeavored", [("singular", [("present", "endeavors")]), ("plural", [("present", "endeavor")]), ("any", [("infinitive", "endeavor")])]),
  ("endeavor", [("any", [("past", "endeavored")])]),
  ("endeavors", [("any", [("past", "endeavored")])]),
  ("heated", [("any", [("past", "heated")])]),
  ("heat", [("any", [("past", "heated")])]),
  ("heats", [("any", [("past", "heated")])]),
  ("shrank", [("singular", [("present", "shrinks")]), ("plural", [("present", "shrink")]), ("any", [("past", "shrank"), ("infinitive", "shrink")])]),
  ("shrink", [("any", [("past", "shrank")])]),
  ("shrinks", [("any", [("past", "shrank")])]),
  ("bet", [("any", [("past", "bet")])]),
  ("bets", [("any", [("past", "bet")])]),
  ("shutout", [("any", [("past", "shutout")])]),
  ("shutouts", [("any", [("past", "shutout")])]),
  ("bit", [("singular", [("present", "bites")]), ("plural", [("present", "bite")]), ("any", [("past", "bit"), ("infinitive", "bite")])]),
  ("bite", [("any", [("past", "bit")])]),
  ("bites", [("any", [("past", "bit")])]),
  ("bringest", [("any", [("past", "broughtest"), ("infinitive", "bring")])]),
  ("bringeth", [("any", [("infinitive", "bring")])]),
  ("broughtest", [("any", [("infinitive", "bring")])]),
  ("setup", [("any", [("past", "setup")])]),
  ("setups", [("any", [("past", "setup")])]),
  ("mentored", [("singular", [("present", "mentors")]), ("plural", [("present", "mentor")]), ("any", [("infinitive", "mentor")])]),
  ("mentor", [("any", [("past", "mentored")])]),
  ("mentors", [("any", [("past", "mentored")])]),
  ("wrapped", [("singular", [("present", "wraps")]), ("plural", [("present", "wrap")]), ("any", [("past", "wrapped"), ("infinitive", "wrap")])]),
  ("wraps", [("singular", [("present", "wraps")]), ("plural", [("present", "wrap")]), ("any", [("past", "wrapped"), ("infinitive", "wrap")])]),
  ("felled", [("singular", [("present", "fells")]), ("plural", [("present", "fell")]), ("any", [("infinitive", "fell")])]),
  ("secret", [("any", [("past", "secreted")])]),
  ("secrets", [("any", [("past", "secreted")])]),
  ("teared", [("any", [("past", "teared")])]),
  ("spirited", [("singular", [("present", "spirits")]), ("plural", [("present", "spirit")]), ("any", [("infinitive", "spirit")])]),
  ("spirits", [("any", [("past", "spirited")])]),
  ("spirit", [("any", [("past", "spirited")])]),
  ("sped", [("singular", [("present", "speeds")]), ("plural", [("present", "speed")]), ("any", [("past", "sped"), ("infinitive", "speed")])]),
  ("siphoned", [("any", [("past", "siphoned")])]),
  ("siphons", [("any", [("past", "siphoned")])]),
  ("siphon", [("any", [("past", "siphoned")])]),
  ("rang", [("singular", [("present", "rings")]), ("plural", [("present", "ring")]), ("any", [("past", "rang"), ("infinitive", "ring")])]),
  ("rings", [("any", [("past", "rang")])]),
  ("ring", [("any", [("past", "rang")])]),
  ("resubmitted", [("any", [("past", "resubmitted")])]),
  ("resubmits", [("any", [("past", "resubmitted")])]),
  ("resubmit", [("any", [("past", "resubmitted")])]),
  ("rediscovered", [("any", [("past", "rediscovered")])]),
  ("rediscovers", [("any", [("past", "rediscovered")])]),
  ("rediscover", [("any", [("past", "rediscovered")])]),
  ("gripped", [("any", [("past", "gripped")])]),
  ("grips", [("any", [("past", "gripped")])]),
  ("grip", [("any", [("past", "gripped")])]),
  ("sprung", [("singular", [("present", "springs")]), ("plural", [("present", "spring")]), ("any", [("past", "sprang"), ("infinitive", "spring")])]),
  ("quoted", [("any", [("past", "quoted")])]),
  ("quotes", [("any", [("past", "quoted")])]),
  ("quote", [("any", [("past", "quoted")])]),
  ("burned", [("any", [("past", "burned")])]),
  ("burns", [("any", [("past", "burned")])]),
  ("burn", [("any", [("past", "burned")])]),
  ("focusses", [("any", [("past", "focused"), ("infinitive", "focus")])]),
  ("focussed", [("any", [("past", "focused")])]),
  ("focused", [("plural", [("present", "focus")]), ("any", [("past", "focused"), ("infinitive", "focus")])]),
  ("focuses", [("any", [("past", "focused")])]),
  ("focus", [("any", [("past", "focused")])]),
  ("fed", [("singular", [("present", "feeds")]), ("plural", [("present", "feed")]), ("any", [("past", "fed"), ("infinitive", "feed")])]),
  ("feeds", [("singular", [("present", "feeds")]), ("plural", [("present", "feed")]), ("any", [("past", "fed")])]),
  ("feed", [("singular", [("present", "feeds")]), ("plural", [("present", "feed")]), ("any", [("past", "fed")])]),
  ("recovered", [("singular", [("present", "recovers")]), ("plural", [("present", "recover")]), ("any", [("infinitive", "recover")])]),
  ("willed", [("singular", [("present", "wills")]), ("plural", [("present", "will")])]),
  ("wills", [("singular", [("present", "wills")]), ("plural", [("present", "will")])]),
  ("will", [("singular", [("present", "wills")]), ("plural", [("present", "will")])]),
  ("towered", [("any", [("past", "towered")])]),
  ("towers", [("any", [("past", "towered")])]),
  ("tower", [("any", [("past", "towered")])]),
  ("spoiled", [("any", [("past", "spoiled")])]),
  ("spoils", [("any", [("past", "spoiled")])]),
  ("spoil", [("any", [("past", "spoiled")])]),
  ("spelled", [("singular", [("present", "spells")]), ("plural", [("present", "spell")]), ("any", [("infinitive", "spell")])]),
  ("spells", [("any", [("past", "spelled")])]),
  ("spell", [("any", [("past", "spelled")])]),
  ("smelled", [("any", [("past", "smelled")])]),
  ("smells", [("any", [("past", "smelled")])]),
  ("smell", [("any", [("past", "smelled")])]),
  ("slimmed", [("any", [("past", "slimmed")])]),
  ("slims", [("any", [("past", "slimmed")])]),
  ("slim", [("any", [("past", "slimmed")])]),
  ("onsold", [("singular", [("present", "onsells")]), ("plural", [("present", "onsell")]), ("any", [("past", "onsold"), ("infinitive", "onsell")])]),
  ("onsells", [("any", [("past", "onsold")])]),
  ("onsell", [("any", [("past", "onsold")])]),
  ("roped", [("singular", [("present", "ropes")]), ("plural", [("present", "rope")]), ("any", [("past", "roped"), ("infinitive", "rope")])]),
  ("redrew", [("singular", [("present", "redraws")]), ("plural", [("present", "redraw")]), ("any", [("past", "redrew"), ("infinitive", "redraw")])]),
  ("redraws", [("any", [("past", "redrew")])]),
  ("redraw", [("any", [("past", "redrew")])]),
  ("reformed", [("singular", [("present", "reforms")]), ("plural", [("present", "reform")]), ("any", [("infinitive", "reform")])]),
  ("neighbored", [("singular", [("present", "neighbors")]), ("plural", [("present", "neighbor")]), ("any", [("infinitive", "neighbor")])]),
  ("neighbors", [("any", [("past", "neighbored")])]),
  ("neighbor", [("any", [("past", "neighbored")])]),
  ("delimited", [("plural", [("present", "delimit")]), ("any", [("infinitive", "delimit")])]),
  ("delimits", [("plural", [("present", "delimit")]), ("any", [("infinitive", "delimit")])]),
  ("delimit", [("any", [("past", "delimited")])]),
  ("spilled", [("singular", [("present", "spills")]), ("plural", [("present", "spill")]), ("any", [("infinitive", "spill")])]),
  ("spills", [("any", [("past", "spilled")])]),
  ("spill", [("any", [("past", "spilled")])]),
  ("bound", [("plural", [("present", "bind")]), ("any", [("infinitive", "bind")])]),
  ("binds", [("plural", [("present", "bind")]), ("any", [("infinitive", "bind")])]),
  ("bind", [("any", [("past", "bound")])]),
  ("enrolled", [("singular", [("present", "enrolls")])]),
  ("enrolls", [("singular", [("present", "enrolls")])]),
  ("enroll", [("singular", [("present", "enrolls")])]),
  ("segued", [("singular", [("present", "segues")]), ("plural", [("present", "segue")]), ("any", [("infinitive", "segue")])]),
  ("segues", [("any", [("past", "segued")])]),
  ("segue", [("any", [("past", "segued")])]),
  ("refueled", [("any", [("past", "refueled")])]),
  ("refuels", [("any", [("past", "refueled")])]),
  ("refuel", [("any", [("past", "refueled")])]),
  ("fueled", [("any", [("past", "fueled")])]),
  ("fuels", [("any", [("past", "fueled")])]),
  ("fuel", [("any", [("past", "fueled")])]),
  ("reconnoitered", [("any", [("past", "reconnoitered")])]),
  ("recoinnoiters", [("any", [("past", "reconnoitered")])]),
  ("recoinnoiter", [("any", [("past", "reconnoitered")])]),
  ("plugged", [("any", [("past", "plugged")])]),
  ("plugs", [("any", [("past", "plugged")])]),
  ("plug", [("any", [("past", "plugged")])]),
  ("modeled", [("singular", [("present", "models")]), ("plural", [("present", "model")]), ("any", [("infinitive", "model")])]),
  ("models", [("any", [("past", "modeled")])]),
  ("model", [("any", [("past", "modeled")])]),
  ("flexed", [("singular", [("present", "flexes")])]),
  ("flexes", [("singular", [("present", "flexes")])]),
  ("flex", [("singular", [("present", "flexes")])]),
  ("resorted", [("singular", [("present", "resorts")]), ("plural", [("present", "resort")]), ("any", [("infinitive", "resort")])]),
  ("tunneled", [("singular", [("present", "tunnels")]), ("plural", [("present", "tunnel")]), ("any", [("infinitive", "tunnel")])]),
  ("tunnels", [("any", [("past", "tunneled")])]),
  ("tunnel", [("any", [("past", "tunneled")])]),
  ("misspelled", [("singular", [("present", "misspells")]), ("plural", [("present", "misspell")]), ("any", [("infinitive", "misspell")])]),
  ("misspells", [("any", [("past", "misspelled")])]),
  ("misspell", [("any", [("past", "misspelled")])]),
  ("dueled", [("any", [("past", "dueled")])]),
  ("duels", [("any", [("past", "dueled")])]),
  ("duel", [("any", [("past", "dueled")])]),
  ("cowrote", [("singular", [("present", "cowrites")]), ("plural", [("present", "cowrite")]), ("any", [("past", "cowrote"), ("infinitive", "cowrite")])]),
  ("cowrite", [("any", [("past", "cowrote")])]),
  ("cowrites", [("any", [("past", "cowrote")])]),
  ("yodeled", [("singular", [("present", "yodels")]), ("plural", [("present", "yodel")]), ("any", [("infinitive", "yodel")])]),
  ("yodels", [("any", [("past", "yodeled")])]),
  ("yodel", [("any", [("past", "yodeled")])]),
  ("summon", [("any", [("past", "summoned")])]),
  ("summoned", [("any", [("infinitive", "summon")])]),
  ("summons", [("any", [("infinitive", "summon")])]),
  ("reinterpreted", [("singular", [("present", "reinterprets")]), ("plural", [("present", "reinterpret")]), ("any", [("infinitive", "reinterpret")])]),
  ("reinterpret", [("any", [("past", "reinterpreted")])]),
  ("reinterprets", [("any", [("past", "reinterpreted")])]),
  ("regrew", [("singular", [("present", "regrows")]), ("plural", [("present", "regrow")]), ("any", [("past", "regrew"), ("infinitive", "regrow")])]),
  ("regrow", [("any", [("past", "regrew")])]),
  ("regrows", [("any", [("past", "regrew")])]),
  ("penciled", [("singular", [("present", "pencils")]), ("plural", [("present", "pencil")]), ("any", [("infinitive", "pencil")])]),
  ("pencil", [("any", [("past", "penciled")])]),
  ("pencils", [("any", [("past", "penciled")])]),
  ("gossiped", [("any", [("past", "gossiped")])]),
  ("gossips", [("any", [("past", "gossiped")])]),
  ("gossip", [("any", [("past", "gossiped")])]),
  ("funneled", [("singular", [("present", "funnels")]), ("plural", [("present", "funnel")]), ("any", [("infinitive", "funnel")])]),
  ("funnel", [("any", [("past", "funneled")])]),
  ("funnels", [("any", [("past", "funneled")])]),
  ("critiqued", [("singular", [("present", "critiques")]), ("plural", [("present", "critique")]), ("any", [("infinitive", "critique")])]),
  ("critiques", [("any", [("past", "critiqued")])]),
  ("critique", [("any", [("past", "critiqued")])]),
  ("colored", [("singular", [("present", "colors")]), ("plural", [("present", "color")]), ("any", [("infinitive", "color")])]),
  ("color", [("any", [("past", "colored")])]),
  ("colors", [("any", [("past", "colored")])]),
  ("counseled", [("singular", [("present", "counsels")]), ("plural", [("present", "counsel")]), ("any", [("infinitive", "counsel")])]),
  ("counsel", [("any", [("past", "counseled")])]),
  ("counsels", [("any", [("past", "counseled")])]),
  ("leveled", [("singular", [("present", "levels")]), ("plural", [("present", "level")]), ("any", [("infinitive", "level")])]),
  ("levels", [("any", [("past", "leveled")])]),
  ("level", [("any", [("past", "leveled")])]),
  ("flied", [("plural", [("present", "fly")]), ("any", [("past", "flied"), ("infinitive", "fly")])]),
  ("smites", [("any", [("past", "smote")])]),
  ("smite", [("any", [("past", "smote")])]),
  ("smote", [("singular", [("present", "smites")]), ("plural", [("present", "smite")]), ("any", [("infinitive", "smite")])]),
  ("reveled", [("singular", [("present", "revels")]), ("plural", [("present", "revel")]), ("any", [("infinitive", "revel")])]),
  ("revels", [("any", [("past", "reveled")])]),
  ("revel", [("any", [("past", "reveled")])]),
  ("rechristened", [("any", [("past", "rechristened")])]),
  ("rechristens", [("any", [("past", "rechristened")])]),
  ("rechristen", [("any", [("past", "rechristened")])]),
  ("inbreed", [("singular", [("present", "inbreeds")]), ("plural", [("present", "inbreed")]), ("any", [("past", "inbred"), ("infinitive", "inbreed")])]),
  ("inbreeds", [("any", [("past", "inbred")])]),
  ("inbred", [("singular", [("present", "inbreeds")]), ("plural", [("present", "inbreed")]), ("any", [("infinitive", "inbred")])]),
  ("homered", [("any", [("past", "homered")])]),
  ("homers", [("any", [("past", "homered")])]),
  ("homer", [("any", [("past", "homered")])]),
  ("emceed", [("any", [("past", "emceed")])]),
  ("emcees", [("any", [("past", "emceed")])]),
  ("emcee", [("any", [("past", "emceed")])]),
  ("fit", [("any", [("past", "fit")])]),
  ("fits", [("any", [("past", "fit")])]),
  ("dwelled", [("singular", [("present", "dwells")]), ("plural", [("present", "dwell")]), ("any", [("infinitive", "dwell")])]),
  ("dwell", [("any", [("past", "dwelled")])]),
  ("dwells", [("any", [("past", "dwelled")])]),
  ("extols", [("plural", [("present", "extol")]), ("any", [("infinitive", "extol")])]),
  ("extolled", [("plural", [("present", "extol")]), ("any", [("infinitive", "extol")])]),
  ("reconvened", [("singular", [("present", "reconvenes")]), ("plural", [("present", "reconvene")]), ("any", [("past", "reconvened"), ("infinitive", "reconvene")])]),
  ("lensed", [("singular", [("present", "lenses")]), ("plural", [("present", "lense")]), ("any", [("infinitive", "lense")])]),
  ("frescoed", [("singular", [("present", "frescoes")])]),
  ("fresco", [("singular", [("present", "frescoes")])]),
  ("frescoes", [("plural", [("present", "fresco")]), ("any", [("past", "frescoed"), ("infinitive", "fresco")])]),
  ("fulfilled", [("singular", [("present", "fulfills")])]),
  ("fulfill", [("singular", [("present", "fulfills")])]),
  ("fulfills", [("singular", [("present", "fulfills")])]),
  ("meshed", [("singular", [("present", "meshes")])]),
  ("meshes", [("singular", [("present", "meshes")])]),
  ("mesh", [("singular", [("present", "meshes")])]),
  ("greenlit", [("singular", [("present", "greenlights")]), ("plural", [("present", "greenlight")]), ("any", [("past", "greenlit"), ("infinitive", "greenlight")])]),
  ("countersued", [("singular", [("present", "countersues")]), ("plural", [("present", "countersue")]), ("any", [("infinitive", "countersue")])]),
  ("countersues", [("any", [("past", "countersued")])]),
  ("countersue", [("any", [("past", "countersued")])]),
  ("distilled", [("singular", [("present", "distills")]), ("plural", [("present", "distill")])]),
  ("distills", [("singular", [("present", "distills")])]),
  ("distill", [("singular", [("present", "distills")])]),
  ("rids", [("any", [("past", "rid")])]),
  ("rid", [("any", [("past", "rid")])]),
  ("uses", [("plural", [("present", "use")]), ("any", [("infinitive", "use")])]),
  ("use", [("any", [("infinitive", "use")])]),
  ("used", [("plural", [("present", "use")]), ("any", [("infinitive", "use")])]),
  ("refind", [("any", [("past", "refound")])]),
  ("refinds", [("any", [("past", "refound")])]),
  ("enthralled", [("singular", [("present", "enthralls")])]),
  ("enthralls", [("singular", [("present", "enthralls")])]),
  ("enthrall", [("singular", [("present", "enthralls")])]),
  ("traveled", [("singular", [("present", "travels")]), ("plural", [("present", "travel")]), ("any", [("infinitive", "travel")])]),
  ("travels", [("any", [("past", "traveled")])]),
  ("travel", [("any", [("past", "traveled")])]),
  ("signaled", [("singular", [("present", "signals")]), ("plural", [("present", "signal")]), ("any", [("infinitive", "signal")])]),
  ("signals", [("any", [("past", "signaled")])]),
  ("signal", [("any", [("past", "signaled")])]),
  ("recreated", [("singular", [("present", "recreates")]), ("plural", [("present", "recreate")])]),
  ("reserved", [("singular", [("present", "reserves")]), ("plural", [("present", "reserve")])]),
  ("quarreled", [("singular", [("present", "quarrels")]), ("plural", [("present", "quarrel")]), ("any", [("infinitive", "quarrel")])]),
  ("quarrels", [("any", [("past", "quarreled")])]),
  ("quarrel", [("any", [("past", "quarreled")])]),
  ("nectared", [("singular", [("present", "nectars")]), ("plural", [("present", "nectar")]), ("any", [("infinitive", "nectar")])]),
  ("nectars", [("any", [("past", "nectared")])]),
  ("nectar", [("any", [("past", "nectared")])]),
  ("marveled", [("singular", [("present", "marvels")]), ("plural", [("present", "marvel")]), ("any", [("infinitive", "marvel")])]),
  ("marvels", [("any", [("past", "marveled")])]),
  ("marvel", [("any", [("past", "marveled")])]),
  ("labored", [("singular", [("present", "labors")]), ("plural", [("present", "labor")]), ("any", [("infinitive", "labor")])]),
  ("labors", [("any", [("past", "labored")])]),
  ("labor", [("any", [("past", "labored")])]),
  ("labeled", [("singular", [("present", "labels")]), ("plural", [("present", "label")]), ("any", [("infinitive", "label")])]),
  ("labels", [("any", [("past", "labeled")])]),
  ("label", [("any", [("past", "labeled")])]),
  ("install", [("singular", [("present", "installs")])]),
  ("installed", [("singular", [("present", "installs")])]),
  ("equalled", [("singular", [("present", "equals")]), ("plural", [("present", "equal")]), ("any", [("infinitive", "equal")])]),
  ("dreamed", [("any", [("past", "dreamed")])]),
  ("dreams", [("any", [("past", "dreamed")])]),
  ("dream", [("any", [("past", "dreamed")])]),
  ("ciliated", [("singular", [("present", "ciliates")]), ("plural", [("present", "ciliate")]), ("any", [("infinitive", "ciliate")])]),
  ("chickened", [("any", [("past", "chickened")])]),
  ("chickens", [("any", [("past", "chickened")])]),
  ("chicken", [("any", [("past", "chickened")])]),
  ("cataloged", [("singular", [("present", "catalogs")]), ("plural", [("present", "catalog")]), ("any", [("infinitive", "catalog")])]),
  ("catalog", [("any", [("past", "cataloged")])]),
  ("catalogs", [("any", [("past", "cataloged")])]),
  ("bypass", [("singular", [("present", "bypasses")])]),
  ("bypassed", [("singular", [("present", "bypasses")])]),
  ("bypasses", [("singular", [("present", "bypasses")])]),
  ("authored", [("singular", [("present", "authors")]), ("plural", [("present", "author")]), ("any", [("infinitive", "author")])]),
  ("authors", [("any", [("past", "authored")])]),
  ("author", [("any", [("past", "authored")])]),
  ("coached", [("singular", [("present", "coaches")])]),
  ("coach", [("singular", [("present", "coaches")])]),
  ("coaches", [("singular", [("present", "coaches")])]),
  ("learned", [("any", [("past", "learned")])]),
  ("learn", [("any", [("past", "learned")])]),
  ("learns", [("any", [("past", "learned")])]),
  ("unraveled", [("singular", [("present", "unravels")]), ("plural", [("present", "unravel")]), ("any", [("infinitive", "unravel")])]),
  ("unravels", [("any", [("past", "unraveled")])]),
  ("unravel", [("any", [("past", "unraveled")])]),
  ("spiraled", [("singular", [("present", "spirals")]), ("plural", [("present", "spiral")]), ("any", [("infinitive", "spiral")])]),
  ("spirals", [("any", [("past", "spiraled")])]),
  ("spiral", [("any", [("past", "spiraled")])]),
  ("leaned", [("singular", [("present", "leans")]), ("plural", [("present", "lean")]), ("any", [("infinitive", "lean")])]),
  ("leans", [("any", [("past", "leaned")])]),
  ("lean", [("any", [("past", "leaned")])]),
  ("harbored", [("singular", [("present", "harbors")]), ("plural", [("present", "harbor")]), ("any", [("infinitive", "harbor")])]),
  ("harbor", [("any", [("past", "harbored")])]),
  ("harbors", [("any", [("past", "harbored")])]),
  ("crossbred", [("singular", [("present", "crossbreeds")]), ("plural", [("present", "crossbreed")]), ("any", [("infinitive", "crossbreed")])]),
  ("crossbreeds", [("any", [("past", "crossbred")])]),
  ("crossbreed", [("singular", [("present", "crossbreeds")]), ("plural", [("present", "crossbreed")]), ("any", [("past", "crossbred"), ("infinitive", "crossbreed")])]),
  ("canceled", [("singular", [("present", "cancels")]), ("plural", [("present", "cancel")]), ("any", [("infinitive", "cancel")])]),
  ("cancels", [("any", [("past", "canceled")])]),
  ("cancel", [("any", [("past", "canceled")])]),
  ("canned", [("singular", [("present", "cans")]), ("plural", [("present", "can")]), ("any", [("past", "canned")])]),
  ("cans", [("singular", [("present", "cans")]), ("any", [("past", "canned")])]),
  ("surveilled", [("singular", [("present", "surveils")]), ("plural", [("present", "surveil")]), ("any", [("past", "surveiled"), ("infinitive", "surveil")])]),
  ("surveil", [("any", [("past", "surveiled")])]),
  ("surveils", [("any", [("past", "surveiled")])]),
  ("rivaled", [("singular", [("present", "rivals")]), ("plural", [("present", "rival")]), ("any", [("infinitive", "rival")])]),
  ("rivals", [("any", [("past", "rivaled")])]),
  ("rival", [("any", [("past", "rivaled")])]),
  ("quarterbacked", [("singular", [("present", "quarterbacks")]), ("plural", [("present", "quarterback")]), ("any", [("past", "quarterbacked"), ("infinitive", "quarterbacked")])]),
  ("underbilled", [("singular", [("present", "underbills")]), ("plural", [("present", "underbill")]), ("any", [("infinitive", "underbill")])]),
  ("channeled", [("singular", [("present", "channels")]), ("plural", [("present", "channel")]), ("any", [("infinitive", "channel")])]),
  ("channels", [("any", [("past", "channeled")])]),
  ("channel", [("any", [("past", "channeled")])]),
  ("summited", [("singular", [("present", "summits")]), ("plural", [("present", "summit")]), ("any", [("infinitive", "summit")])]),
  ("summits", [("any", [("past", "summited")])]),
  ("summit", [("any", [("past", "summited")])]),
  ("wyed", [("singular", [("present", "wyes")]), ("plural", [("present", "wye")]), ("any", [("past", "wyed"), ("infinitive", "wye")])]),
  ("outspent", [("singular", [("present", "outspends")]), ("plural", [("present", "outspend")]), ("any", [("past", "outspent"), ("infinitive", "outspend")])]),
  ("outspends", [("any", [("past", "outspent")])]),
  ("outspend", [("any", [("past", "outspent")])]),
  ("pastored", [("singular", [("present", "pastors")]), ("plural", [("present", "pastor")]), ("any", [("infinitive", "pastor")])]),
  ("pastors", [("any", [("past", "pastored")])]),
  ("pastor", [("any", [("past", "pastored")])]),
  ("stank", [("singular", [("present", "stinks")]), ("plural", [("present", "stink")]), ("any", [("past", "stank"), ("infinitive", "stink")])]),
  ("stinks", [("any", [("past", "stank")])]),
  ("stink", [("any", [("past", "stank")])]),
  ("totaled", [("singular", [("present", "totals")]), ("plural", [("present", "total")]), ("any", [("infinitive", "total")])]),
  ("totals", [("any", [("past", "totaled")])]),
  ("total", [("any", [("past", "totaled")])]),
  ("lambaste", [("singular", [("present", "lambastes")])]),
  ("lambastes", [("singular", [("present", "lambastes")])]),
  ("lambasted", [("singular", [("present", "lambastes")])]),
  ("reawakens", [("any", [("past", "reawakened")])]),
  ("reawaken", [("any", [("past", "reawakened")])]),
  ("spotlighted", [("any", [("past", "spotlighted")])]),
  ("spotlights", [("any", [("past", "spotlighted")])]),
  ("spotlight", [("any", [("past", "spotlighted")])]),
  ("broadcasts", [("any", [("past", "broadcast")])]),
  ("broadcast", [("any", [("past", "broadcast")])]),
  ("handmade", [("singular", [("present", "handmakes")]), ("plural", [("present", "handmake")]), ("any", [("past", "handmade"), ("infinitive", "handmake")])]),
  ("handmakes", [("any", [("past", "handmade")])]),
  ("handmake", [("any", [("past", "handmade")])]),
  ("interfingered", [("any", [("past", "interfingered")])]),
  ("interfingers", [("any", [("past", "interfingered")])]),
  ("interfinger", [("any", [("past", "interfingered")])]),
  ("unzoned", [("singular", [("present", "unzones")]), ("plural", [("present", "unzone")]), ("any", [("past", "unzoned"), ("infinitive", "unzone")])]),
  ("trialled", [("singular", [("present", "trials")]), ("plural", [("present", "trial")]), ("any", [("past", "trialled"), ("infinitive", "trial")])]),
  ("simulcasts", [("any", [("past", "simulcast")])]),
  ("simulcast", [("any", [("past", "simulcast")])]),
  ("unenrolled", [("singular", [("present", "unenrolls")]), ("plural", [("present", "unenroll")]), ("any", [("infinitive", "unenroll")])]),
  ("hyped", [("singular", [("present", "hypes")]), ("plural", [("present", "hype")]), ("any", [("past", "hyped"), ("infinitive", "hype")])]),
  ("forecast", [("any", [("past", "forecast")])]),
  ("forecasts", [("any", [("past", "forecast")])]),
  ("remastered", [("any", [("past", "remastered")])]),
  ("remasters", [("any", [("past", "remastered")])]),
  ("remaster", [("any", [("past", "remastered")])]),
  ("wrought", [("singular", [("present", "works")]), ("plural", [("present", "work")]), ("any", [("past", "wrought"), ("infinitive", "work")])]),
  ("discolored", [("singular", [("present", "discolors")]), ("plural", [("present", "discolor")]), ("any", [("infinitive", "discolor")])]),
  ("discolors", [("any", [("past", "discolored")])]),
  ("discolor", [("any", [("past", "discolored")])]),
  ("parceled", [("singular", [("present", "parcels")]), ("plural", [("present", "parcel")]), ("any", [("infinitive", "parcel")])]),
  ("parcels", [("any", [("past", "parceled")])]),
  ("parcel", [("any", [("past", "parceled")])]),
  ("stenciled", [("singular", [("present", "stencils")]), ("plural", [("present", "stencil")]), ("any", [("infinitive", "stencil")])]),
  ("stencils", [("any", [("past", "stenciled")])]),
  ("stencil", [("any", [("past", "stenciled")])]),
  ("halts", [("plural", [("present", "halt")]), ("any", [("infinitive", "halt")])]),
  ("halted", [("plural", [("present", "halt")]), ("any", [("infinitive", "halt")])]),
  ("gelded", [("any", [("past", "gelded")])]),
  ("gelds", [("any", [("past", "gelded")])]),
  ("geld", [("any", [("past", "gelded")])]),
  ("crossovered", [("any", [("past", "crossovered")])]),
  ("crossovers", [("any", [("past", "crossovered")])]),
  ("crossover", [("any", [("past", "crossovered")])]),
  ("haltered", [("singular", [("present", "halters")]), ("plural", [("present", "halter")]), ("any", [("past", "haltered"), ("infinitive", "halter")])]),
  ("halters", [("singular", [("present", "halters")]), ("plural", [("present", "halter")]), ("any", [("past", "haltered"), ("infinitive", "halter")])]),
  ("halter", [("singular", [("present", "halters")]), ("plural", [("present", "halter")]), ("any", [("past", "haltered"), ("infinitive", "halter")])]),
  ("wet", [("any", [("past", "wet")])]),
  ("wets", [("any", [("past", "wet")])]),
  ("upsprang", [("singular", [("present", "upsprings")]), ("plural", [("present", "upspring")]), ("any", [("past", "upsprang"), ("infinitive", "upspring")])]),
  ("upsprings", [("any", [("past", "upsprang")])]),
  ("upspring", [("any", [("past", "upsprang")])]),
  ("counterargued", [("singular", [("present", "counterargues")]), ("plural", [("present", "counterargue")]), ("any", [("infinitive", "counterargue")])]),
  ("counterargues", [("any", [("past", "counterargued")])]),
  ("counterargue", [("any", [("past", "counterargued")])])
]

def PLURALS_WITH_NO_DETERMINERS : List String := ["Aircraft", "Barracks", "Binoculars", "Bison", "Boar", "Buffalo", "Caribou", "Cattle", "Cod", "Deer", "Elk", "Eyeglasses", "Fish", "Gallows", "Goldfish", "Haddock", "Halibut", "Hovercraft", "Insignia", "Moose", "Offspring", "Pike", "Pliers", "Police", "Premises", "Reindeer", "Salmon", "Scissors", "Series", "Sheep", "Shellfish", "Shrimp", "Spacecraft", "Species", "Squid", "Swine", "Tongs", "Trout", "Tuna", "Watercraft", "aircraft", "barracks", "binoculars", "bison", "boar", "buffalo", "caribou", "cattle", "cod", "deer", "elk", "eyeglasses", "fish", "gallows", "goldfish", "haddock", "halibut", "hovercraft", "insignia", "moose", "offspring", "pike", "pliers", "police", "premises", "reindeer", "salmon", "scissors", "series", "sheep", "shellfish", "shrimp", "spacecraft", "species", "squid", "swine", "tongs", "trout", "tuna", "watercraft"]

def EXCLUSION_STRINGS : List String := ["\t", "\n", " ,", " .", " d ", " d\x27ve ", " ll ", " ll\x27ve ", " m ", " re ", " s ", " t ", " t\x27ve ", " ve ", "\"", "\x23", "%", "\x27", "\x27 ", "*", "+", ".com", ".edu", ".gov", ".net", "/", ";", "<", ">", "@", "Americansskirmished", "[", "\\", "]", "^", "_", "\x60", "hilself", "himthat", "unitsalso", "\x7b", "|", "\x7d", "~"]

def EN_STOP_STRINGS : List String := [" thevar ", "(", ")", "-", "0", "1", "2", "3", "4", "5", "6", "7", "8", "9", ":", "DThat", "[", "]", "criterionif", "instalment", "is in length", "out put", "thenproceeded", "\x7b", "\x7d", "\u2013", "\u2014"]

def EN_ABBREVIATIONS : List String := ["Approx.", "Av.", "Ave.", "Bg.", "Blvd.", "Brig.", "C.", "Ca.", "Capt.", "Cdr.", "Chr.", "Col.", "Cpl.", "Cpt.", "Csm.", "Dir.", "Dist.", "Dr.", "Fr.", "Ft.", "Ga.", "Gen.", "Govt.", "Hon.", "Inc.", "Incl.", "Jr.", "Lt.", "Ltc.", "Ltd.", "Ltg.", "Maj.", "Mfg.", "Mg.", "Mr.", "Mrs.", "Ms.", "Msg.", "No.", "Nos.", "Oosp.", "P.", "Pfc.", "Ph.", "Po.", "Prof.", "Ps.", "Pvt.", "Rd.", "Rep.", "Rev.", "Sc.", "Sci.", "Sen.", "Sfc.", "Sgm.", "Sgt.", "Sma.", "Sp.", "Spc.", "Sr.", "Ssg.", "St.", "Ste.", "Sts.", "Subsp.", "Tr.", "Ul.", "Univ.", "Var.", "Ven.", "Ver.", "Vol.", "Vs.", "al.", "approx.", "bg.", "brig.", "c.", "ca.", "capt.", "cdr.", "chr.", "col.", "cpl.", "cpt.", "csm.", "dir.", "dist.", "fr.", "ft.", "ga.", "gen.", "govt.", "hon.", "ibid.", "incl.", "jr.", "lt.", "ltc.", "ltg.", "maj.", "mfg.", "mg.", "msg.", "no.", "nos.", "oosp.", "p.", "pfc.", "ph.", "po.", "ps.", "pvt.", "rd.", "rep.", "rev.", "sc.", "sci.", "sen.", "sfc.", "sgm.", "sgt.", "sma.", "sp.", "spc.", "sr.", "ssg.", "ste.", "sts.", "subsp.", "tr.", "ul.", "univ.", "var.", "ven.", "ver.", "vol.", "vs.", "www."]

/-! ### Token attribute helpers (`EToken`, spacyutils.py lines 193-530). -/

/-- `EToken.get_morph` for a single key: the feature value when present and
non-empty (source lines 491-498 filter falsy values). -/
def get_morph (t : Tok) (k : String) : Option String :=
  match (t.morph.find? (fun p => p.1 = k)).map (·.2) with
  | some v => if v = "" then none else some v
  | none => none

/-- Python `{**d, **kwargs}`: keep positions of existing keys, append new ones. -/
def dictMerge (d kw : List (String × Option String)) : List (String × Option String) :=
  kw.foldl (fun acc p =>
    if (acc.find? (fun q => q.1 = p.1)).isSome
    then acc.map (fun q => if q.1 = p.1 then p else q)
    else acc ++ [p]) d

/-- `EToken.set_morph`: merge keyword features into the morph mapping and
drop `None`-valued keys (source lines 481-489). -/
def set_morph (t : Tok) (kw : List (String × Option String)) : Tok :=
  let d0 : List (String × Option String) := t.morph.map (fun p => (p.1, some p.2))
  let d1 := dictMerge d0 kw
  { t with morph := d1.filterMap (fun p => p.2.map (fun v => (p.1, v))) }

/-- `EToken.is_aux`: `AUX` part of speech, or any form of *be* (lines 235-240). -/
def is_aux (t : Tok) : Bool := t.pos_ == "AUX" || t.lemma_ == "be"

/-- `EToken.is_verb` (lines 242-245). -/
def is_verb (t : Tok) : Bool := t.pos_ == "VERB"

/-- `EToken.can_be_inflected` (lines 255-264). -/
def can_be_inflected (t : Tok) : Bool :=
  !(["VBN", "VBG"].contains t.tag_) &&
  (is_verb t || (is_aux t && INFLECTED_AUXES.contains t.lemma_))

/-- `EToken.can_be_decapitalized` (lines 266-270). -/
def can_be_decapitalized (t : Tok) : Bool := t.pos_ != "PROPN" && t.text != "I"

/-- `EToken.is_noun`, `is_pronoun`, `is_determiner`, `can_be_numbered`
(lines 277-295). -/
def is_noun (t : Tok) : Bool := t.pos_ == "NOUN"

def is_pronoun (t : Tok) : Bool := t.pos_ == "PRON"

def is_determiner (t : Tok) : Bool := t.pos_ == "DET"

def can_be_numbered (t : Tok) : Bool := is_noun t || is_pronoun t || is_determiner t

/-- The index of a token's head as read through the `EToken.head` property
plus the `head_i` override honoured by the editing layer
(`t.head.i if not hasattr(t, 'head_i') else t.head_i`): the head property
returns the token itself for the root. -/
def head_idx (t : Tok) : Nat :=
  t.head_i.getD (if t.dep_ == "ROOT" then t.i else t.head)

/-- The head token, as `EToken.head` resolves it against a document whose
tokens sit at their own positions (spaCy heads are object references into
the same document; out-of-range indices cannot arise there and default to
the token itself). -/
def headTok (d : EDoc) (t : Tok) : Tok :=
  if t.dep_ == "ROOT" then t else (d.toks.get? t.head).getD t

/-- `EToken.children`: the tokens of the document whose head is this token
(document order; the root is not its own child). -/
def childrenOf (d : EDoc) (t : Tok) : List Tok :=
  d.toks.filter (fun u => u.head == t.i && u.i != t.i)

/-- `EToken.rights`: children to the right of the token. -/
def rightsOf (d : EDoc) (t : Tok) : List Tok :=
  d.toks.filter (fun u => u.head == t.i && u.i != t.i && t.i < u.i)

/-! ### Copy-on-write editing (`EDoc.copy_with_replace`,
`EDoc._copy_with_remove`, `EDoc._copy_with_add`, spacyutils.py 728-924). -/

/-- Python `s[0]`. -/
def pyStrHead (s : String) : Exc Char :=
  match s.data with
  | [] => .error "IndexError: string index out of range"
  | c :: _ => .ok c

/-- The `Doc(...)` constructor: parallel field lists become the positional
token sequence; a true space flag becomes a single trailing blank. -/
def buildDoc (words : List String) (spaces : List Bool) (tags pos : List String)
    (morphs : List (List (String × String))) (lemmas : List String) (heads : List Nat)
    (deps : List String) (sentStarts : List Bool) (ents : List String)
    (previous : Option EDoc) : EDoc :=
  .mk ((List.range words.length).map (fun j =>
    { i := j
      text := (words.get? j).getD ""
      whitespace_ := if (spaces.get? j).getD false then " " else ""
      tag_ := (tags.get? j).getD ""
      pos_ := (pos.get? j).getD ""
      morph := (morphs.get? j).getD []
      lemma_ := (lemmas.get? j).getD ""
      dep_ := (deps.get? j).getD ""
      head := (heads.get? j).getD j
      head_i := none
      is_sent_start := (sentStarts.get? j).getD false
      ent_iob_ := (ents.get? j).getD "" })) previous

/-- The parallel field lists read off the current document by the editing
operations (lines 746-757). -/
structure Fields where
  words : List String
  spaces : List Bool
  tags : List String
  pos : List String
  morphs : List (List (String × String))
  lemmas : List String
  heads : List Nat
  deps : List String
  sents : List Bool
  ents : List String

/-- The initial field lists of `copy_with_replace`. -/
def fieldsOf (d : EDoc) : Fields :=
  { words := d.toks.map (·.text)
    spaces := d.toks.map (fun t => t.whitespace_ == " ")
    tags := d.toks.map (·.tag_)
    pos := d.toks.map (·.pos_)
    morphs := d.toks.map (·.morph)
    lemmas := d.toks.map (·.lemma_)
    heads := d.toks.map head_idx
    deps := d.toks.map (·.dep_)
    sents := d.toks.map (·.is_sent_start)
    ents := d.toks.map (·.ent_iob_) }

/-- One iteration of the replacement loop (lines 760-770): write the
replacement token's fields at the index (the `spaces` slot is assigned the
raw whitespace string, which the `Doc` constructor reads for truthiness). -/
def replaceWrite (f : Fields) (i : Nat) (t : Tok) : Exc Fields := do
  let words ← pySet f.words i t.text
  let spaces ← pySet f.spaces i (t.whitespace_ != "")
  let tags ← pySet f.tags i t.tag_
  let pos ← pySet f.pos i t.pos_
  let morphs ← pySet f.morphs i t.morph
  let lemmas ← pySet f.lemmas i t.lemma_
  let heads ← pySet f.heads i (head_idx t)
  let deps ← pySet f.deps i t.dep_
  let sents ← pySet f.sents i t.is_sent_start
  let ents ← pySet f.ents i t.ent_iob_
  pure { words, spaces, tags, pos, morphs, lemmas, heads, deps, sents, ents }

/-- The `for i, t in zip(indices, tokens)` loop of `copy_with_replace`. -/
def replaceLoop : List (Nat × Tok) → Fields → Exc Fields
  | [], f => .ok f
  | p :: ps, f => do replaceLoop ps (← replaceWrite f p.1 p.2)

/-- `EDoc.copy_with_replace` (lines 728-787).  A single token/index argument
is normalized by the source to a singleton list; the embedded signature takes
the lists and the optional `indices` directly. -/
def copy_with_replace (d : EDoc) (tokens : List Tok)
    (indices : Option (List Nat) := none) : Exc EDoc := do
  let idxs := indices.getD (tokens.map (·.i))
  if tokens.length ≠ idxs.length then
    throw "ValueError: There must be an equal number of tokens and indices!"
  let f ← replaceLoop (idxs.zip tokens) (fieldsOf d)
  pure (buildDoc f.words f.spaces f.tags f.pos f.morphs f.lemmas f.heads f.deps f.sents f.ents
    (some d))

/-- A Python `int` or `list/range` index argument. -/
inductive IdxArg where
  | int (n : Nat)
  | list (l : List Nat)
deriving Repr, DecidableEq

/-- `EDoc._copy_with_remove` (lines 789-860), including the source's
normalization slip on line 803: a list-valued `move_deps_to` is replaced by
`indices` itself (`[move_deps_to] if not isinstance(move_deps_to,(list,range))
else indices`), so only an `int` substitute is ever honoured. -/
def copy_with_remove (d : EDoc) (indices move_deps_to : IdxArg) : Exc EDoc := do
  let idxs := match indices with | .int n => [n] | .list l => l
  let mdt := match move_deps_to with | .int n => [n] | .list _ => idxs
  if (idxs ++ mdt).any (fun k => (k : Int) > (d.toks.length : Int) - 1) then
    throw "IndexError: no token to remove at this index"
  let tokens := d.toks.filter (fun t => !(idxs.contains t.i))
  let words := tokens.map (·.text)
  let w0 ← pyNth words 0
  let c0 ← pyStrHead w0
  let words := if !c0.isUpper then words.set 0 (c0.toUpper.toString ++ strTail w0) else words
  let spaces ← excMapM (fun t =>
    if idxs.contains (t.i + 1) then do
      let u ← pyTok d (t.i + 1)
      pure (u.whitespace_ == " ")
    else pure (t.whitespace_ == " ")) tokens
  let tags := tokens.map (·.tag_)
  let pos := tokens.map (·.pos_)
  let morphs := tokens.map (·.morph)
  let lemmas := tokens.map (·.lemma_)
  let heads := tokens.map head_idx
  let heads := (idxs.zip mdt).foldl (fun hs p =>
    hs.map (fun h => if h > p.1 then h - 1 else if h == p.1 then p.2 else h)) heads
  let deps := tokens.map (·.dep_)
  let sents := (tokens.map (·.is_sent_start)).set 0 true
  let ents := tokens.map (·.ent_iob_)
  pure (buildDoc words spaces tags pos morphs lemmas heads deps sents ents (some d))

/-- `EDoc._copy_with_add` (lines 862-924): insert a token at a position,
shifting the later head references. -/
def copy_with_add (d : EDoc) (token : Tok) (index : Nat) : Exc EDoc := do
  let heads0 := (d.toks.map head_idx).map (fun h => if h > index then h + 1 else h)
  let tokensIns := d.toks.take index ++ [token] ++ d.toks.drop index
  let heads := heads0.take index ++ [head_idx token] ++ heads0.drop index
  let words := tokensIns.map (·.text)
  let words ← (do
    if index == 0 then
      let w0 ← pyNth words 0
      let c0 ← pyStrHead w0
      let words := words.set 0 (c0.toUpper.toString ++ strTail w0)
      let t1 ← pyNth tokensIns 1
      if can_be_decapitalized t1 then
        let w1 ← pyNth words 1
        let c1 ← pyStrHead w1
        pure (words.set 1 (c1.toLower.toString ++ strTail w1))
      else pure words
    else pure words)
  let tIdx ← pyTok d index
  let spaces :=
    if tIdx.whitespace_ == "" then
      tokensIns.map (fun t => if t.i != index then t.whitespace_ == " " else false)
    else tokensIns.map (fun t => t.whitespace_ == " ")
  let tags := tokensIns.map (·.tag_)
  let pos := tokensIns.map (·.pos_)
  let morphs := tokensIns.map (·.morph)
  let lemmas := tokensIns.map (·.lemma_)
  let deps := tokensIns.map (·.dep_)
  let sents := true :: List.replicate (tokensIns.length - 1) false
  let ents := tokensIns.map (·.ent_iob_)
  pure (buildDoc words spaces tags pos morphs lemmas heads deps sents ents (some d))

/-! ### Grammatical relation resolution (`EToken.subject`, `EToken.object`,
`EToken.determiner`, `EDoc._get_conjuncts`, `EDoc._get_partitive_head_noun`,
spacyutils.py lines 326-442, 1516-1602).  Python's dynamic
`Union[EToken, List[EToken]]` results become `TokOrList`; a Python `None`
is the surrounding `Option`.  Recursion through the head/conjunct graph is
fuel-bounded; fuel exhaustion models divergence. -/

/-- A dynamic `EToken`-or-`List[EToken]` value. -/
inductive TokOrList where
  | one (t : Tok)
  | many (l : List Tok)
deriving Repr, DecidableEq

/-- Python truthiness of a token-or-list value (a token object is always
truthy, a list is truthy when non-empty). -/
def TokOrList.truthy : TokOrList → Bool
  | .one _ => true
  | .many l => !l.isEmpty

/-- `flatten` (spacyutils.py lines 34-39) applied to a list of
token-or-list values: splice nested lists in place. -/
def flattenTL (l : List TokOrList) : List Tok :=
  l.flatMap (fun | .one t => [t] | .many ts => ts)

/-- Stable insertion into a list sorted by position. -/
def insByI (t : Tok) : List Tok → List Tok
  | [] => [t]
  | u :: us => if u.i < t.i then u :: insByI t us else t :: u :: us

/-- Python `sorted(s, key=lambda t: t.i)` (stable). -/
def sortByI (l : List Tok) : List Tok := l.foldr insByI []

/-- `EToken.determiner` (lines 326-341): `det`/`nummod` children plus
determiner-like `amod` children. -/
def determinerOf (d : EDoc) (t : Tok) : Option TokOrList :=
  let ds := (childrenOf d t).filter (fun c =>
    ["det", "nummod"].contains c.dep_ ||
    (c.dep_ == "amod" && AMOD_DETERMINERS.contains c.text))
  match ds with
  | [] => none
  | [c] => some (.one c)
  | l => some (.many l)

/-- `EToken.subject` (lines 357-442): subject-labelled children, falling back
to the head's subject children, then recursing up the head chain for
auxiliaries; expletive/locative inversion special cases; `attr`-only
candidate lists do not count. -/
def subjectOf (d : EDoc) : Nat → Tok → Exc (Option TokOrList)
  | 0, _ => .error "RecursionError: subject"
  | fuel+1, self => do
    let s0 := (childrenOf d self).filter (fun c => SUBJ_DEPS.contains c.dep_)
    let s1 := if s0.isEmpty
      then (childrenOf d (headTok d self)).filter (fun c => SUBJ_DEPS.contains c.dep_)
      else s0
    let sv ←
      if s1.isEmpty && is_aux self then
        if self.dep_ != "ROOT" then subjectOf d fuel (headTok d self)
        else pure none
      else pure (some (.many s1))
    match sv with
    | none => pure none
    | some sv =>
      let s : List Tok := match sv with | .one t => [t] | .many l => l
      if s.isEmpty then pure none
      else do
        let allExpl := s.all (fun t => t.dep_ == "expl")
        let selfCh := childrenOf d self
        let headCh := childrenOf d (headTok d self)
        let s ←
          if allExpl && (selfCh.any (fun t => t.dep_ == "xcomp") ||
              (is_aux self && headCh.any (fun t => t.dep_ == "xcomp"))) then do
            let ref := if !(is_aux self && headCh.any (fun t => t.dep_ == "xcomp"))
              then self else headTok d self
            let refCh := childrenOf d ref
            if refCh.any (fun t => t.lemma_ == "be") then do
              let b ← pyNth (refCh.filter (fun t => t.lemma_ == "be")) 0
              pure (s ++ (childrenOf d b).filter (fun t => SUBJ_DEPS.contains t.dep_))
            else if refCh.any is_verb then do
              let vb ← pyNth (refCh.filter is_verb) 0
              pure (s ++ (childrenOf d vb).filter (fun t => OBJ_DEPS.contains t.dep_))
            else pure s
          else if allExpl && (self.lemma_ != "be" ||
              (is_aux self && !(headCh.any (fun t => t.lemma_ == "be")))) then do
            let ref := if !(is_aux self && !(headCh.any (fun t => t.lemma_ == "be")))
              then self else headTok d self
            pure (s ++ (childrenOf d ref).filter (fun t => OBJ_DEPS.contains t.dep_))
          else pure s
        if s.all (fun t => t.dep_ == "attr") then pure none
        else match s with
          | [] => pure none
          | [t] => pure (some (.one t))
          | l => pure (some (.many (sortByI l)))

/-- `EToken.object` (lines 343-355): object-labelled children minus any
token that is also a subject. -/
def objectOf (d : EDoc) (fuel : Nat) (self : Tok) : Exc (Option TokOrList) := do
  let o := (childrenOf d self).filter (fun t => OBJ_DEPS.contains t.dep_)
  let sv ← subjectOf d fuel self
  let s := match sv with
    | none => []
    | some (.one t) => [t]
    | some (.many l) => l
  let o := o.filter (fun t => !(s.any (fun t2 => t.i == t2.i)))
  match o with
  | [] => pure none
  | [t] => pure (some (.one t))
  | l => pure (some (.many l))

/-- Default fuel for a document: generous for the bounded head/conjunct
recursions of a finite parse (every concrete document below is far smaller). -/
def docFuel (d : EDoc) : Nat := (d.toks.length + 2) * 8

/-- `EToken.has_subject` (truthiness of the subject value). -/
def has_subject_tok (d : EDoc) (t : Tok) : Exc Bool := do
  match ← subjectOf d (docFuel d) t with
  | none => pure false
  | some sv => pure sv.truthy

/-- `EToken.has_object`. -/
def has_object_tok (d : EDoc) (t : Tok) : Exc Bool := do
  match ← objectOf d (docFuel d) t with
  | none => pure false
  | some sv => pure sv.truthy

/-- `EToken.is_transitive` (`self.has_subject and self.has_object`,
short-circuiting). -/
def is_transitive_tok (d : EDoc) (t : Tok) : Exc Bool := do
  if ← has_subject_tok d t then has_object_tok d t else pure false

/-- `EToken.is_intransitive`. -/
def is_intransitive_tok (d : EDoc) (t : Tok) : Exc Bool := do
  pure (!(← is_transitive_tok d t))

mutual

/-- `EDoc._get_conjuncts` (lines 1582-1602): right-hand `conj` dependents;
partitive conjuncts contribute their own conjuncts and are replaced by their
partitive head noun; the list is flattened and then closed under conjuncts
of its members, deduplicating by position against the growing list. -/
def get_conjuncts (d : EDoc) : Nat → Tok → Exc (List Tok)
  | 0, _ => .error "RecursionError: get_conjuncts"
  | fuel+1, t => do
    let base := (rightsOf d t).filter (fun c => c.dep_ == "conj")
    let mut repl : List TokOrList := []
    let mut ext : List Tok := []
    for c in base do
      if ALL_PARTITIVES.contains c.text then
        let more ← get_conjuncts d fuel c
        ext := ext ++ more
        let hn ← get_partitive_head_noun d fuel c
        repl := repl ++ [hn]
      else
        repl := repl ++ [.one c]
    let flat := flattenTL (repl ++ ext.map .one)
    let mut acc := flat
    for c in flat do
      let rec_ ← get_conjuncts d fuel c
      for u in rec_ do
        if !(acc.any (fun t2 => u.i == t2.i)) then
          acc := acc ++ [u]
    pure acc

/-- The inner `get_of_head_noun` helper of `_get_partitive_head_noun`
(lines 1523-1562).  Note the source's comprehension variable shadows the
outer token, so the preposition test consults `PARTITIVES_P_MAP` keyed by
the child's own text (defaulting to `of`). -/
def get_of_head_noun (d : EDoc) : Nat → Tok → Exc TokOrList
  | 0, _ => .error "RecursionError: get_of_head_noun"
  | fuel+1, t => do
    let pchildren := (childrenOf d t).filter (fun c => (pmapGet c.text ["of"]).contains c.text)
    if !pchildren.isEmpty then do
      let h ← pyNth pchildren 0
      let base := childrenOf d h
      let mut hn : List Tok := base
      for c in base do
        hn := hn ++ (← get_conjuncts d fuel c)
      match hn with
      | [x] => pure (.one x)
      | l => pure (.many l)
    else pure (.one t)

/-- `EDoc._get_partitive_head_noun` (lines 1516-1580). -/
def get_partitive_head_noun (d : EDoc) : Nat → Tok → Exc TokOrList
  | 0, _ => .error "RecursionError: get_partitive_head_noun"
  | fuel+1, t => do
    if !(ALL_PARTITIVES.contains t.text) then
      throw "ValueError: cannot get the head of a non-partitive noun"
    if PARTITIVES_WITH_P.contains t.text then
      get_of_head_noun d fuel t
    else if PARTITIVES_OPTIONAL_P.contains t.text then
      if (childrenOf d t).any (fun c => (pmapGet c.text ["of"]).contains c.text) then
        get_of_head_noun d fuel t
      else
        pure (.many ((childrenOf d t).filter (fun c => NOUN_POS_TAGS.contains c.pos_)))
    else if PARTITIVES_WITH_INDEFINITE_ONLY.contains t.text then do
      let s_det := (childrenOf d t).filter (fun c => c.dep_ == "det")
      match s_det with
      | c :: _ =>
        if get_morph c "Definite" == some "Ind" then get_of_head_noun d fuel t
        else pure (.one t)
      | [] => pure (.one t)
    else pure (.one t)

end

/-! ### Root and main verb (`EDoc.root`, `EDoc.root_is_verb`,
`EDoc.main_verb`, spacyutils.py lines 942-973). -/

/-- `EDoc.root`: the first token labelled `ROOT`, `None` when there is none. -/
def rootOf (d : EDoc) : Option Tok := d.toks.find? (fun t => t.dep_ == "ROOT")

/-- `EDoc.root_is_verb` (lines 950-959). -/
def root_is_verb (d : EDoc) : Bool :=
  match rootOf d with
  | some r => is_verb r || is_aux r
  | none => false

/-- The auxiliary-descent loop of `EDoc.main_verb` (lines 966-969): while the
current verb has an `auxpass`/`aux` child, descend to the first such child. -/
def aux_descend (d : EDoc) : Nat → Tok → Exc Tok
  | 0, _ => .error "divergence: aux descent"
  | fuel+1, v =>
    match (childrenOf d v).find? (fun c => ["auxpass", "aux"].contains c.dep_) with
    | none => .ok v
    | some c => aux_descend d fuel c

/-- `EDoc.main_verb` (lines 961-973). -/
def main_verb (d : EDoc) : Exc (Option Tok) := do
  if root_is_verb d then
    match rootOf d with
    | some v => do pure (some (← aux_descend d (docFuel d) v))
    | none => pure none
  else pure none

/-! ### Main subject and its derived properties
(spacyutils.py lines 981-1079). -/

/-- `EDoc.main_subject` (lines 990-1024). -/
def main_subject (d : EDoc) : Exc (Option TokOrList) := do
  match ← main_verb d with
  | none => pure none
  | some v =>
    match ← subjectOf d (docFuel d) v with
    | none => pure none
    | some sv => do
      let s : List Tok := match sv with | .one t => [t] | .many l => l
      let s0 ← pyNth s 0
      let s := s ++ (← get_conjuncts d (docFuel d) s0)
      match s with
      | [x] =>
        if VERB_PREFIXES.contains x.text then do
          let s2 := (childrenOf d x).filter (fun c =>
            SUBJ_DEPS.contains c.dep_ || c.dep_ == "compound")
          let s20 ← pyNth s2 0
          let s2 := s2 ++ (← get_conjuncts d (docFuel d) s20)
          match s2 with
          | [y] => pure (some (.one y))
          | l => pure (some (.many (sortByI l)))
        else pure (some (.one x))
      | l => pure (some (.many (sortByI l)))

/-- Python `max(t.i for t in l)`. -/
def pyMaxI (l : List Tok) : Exc Nat :=
  match l.map (·.i) with
  | [] => .error "ValueError: max() arg is an empty sequence"
  | x :: xs => .ok (xs.foldl max x)

/-- `EDoc._main_subject_index` (lines 1037-1048): one past the last subject
position (`max(...) + 1`, or `s.i + 1` for a single subject token). -/
def main_subject_index (d : EDoc) : Exc (Option Nat) := do
  match ← main_subject d with
  | some (.many l) => do pure (some ((← pyMaxI l) + 1))
  | none => pure none
  | some (.one t) => pure (some (t.i + 1))

/-- `EDoc.has_conjoined_main_subject` (lines 1060-1068). -/
def has_conjoined_main_subject (d : EDoc) : Exc Bool := do
  match ← main_subject d with
  | some (.many l) => do
    let s0 ← pyNth l 0
    pure (!(← get_conjuncts d (docFuel d) s0).isEmpty)
  | _ => pure false

/-- The dynamic result of `EDoc.main_subject_determiner`: a single
determiner value or a list of per-subject determiner values. -/
inductive DetRes where
  | single (v : Option TokOrList)
  | listOf (l : List (Option TokOrList))
deriving Repr, DecidableEq

/-- `EDoc.main_subject_determiner` (lines 1070-1079). -/
def main_subject_determiner (d : EDoc) : Exc DetRes := do
  match ← main_subject d with
  | some (.many l) => pure (.listOf (l.map (fun t => determinerOf d t)))
  | some (.one t) => pure (.single (determinerOf d t))
  | none => throw "AttributeError: NoneType has no attribute determiner"

/-! ### Interveners (`EDoc.main_subject_verb_interveners`,
spacyutils.py lines 1081-1161). -/

/-- Python membership of an `EToken` object in a set of strings
(`[t for t in s.determiner if ...][0] in ALL_PARTITIVES`, lines 1636 and
1747): an `EToken` defines no `__eq__`/`__hash__` against `str`, so the
test is always false. -/
def tokenInStringList (_t : Tok) (_l : List String) : Bool := false

/-- The intervener filter (lines 1115-1159): keep a token when the next
slice element differs in both tag and part of speech (or is the appended
`None` sentinel), it is a `NOUN`/`PROPN`, it is not `compound`/`nmod`, and
it does not satisfy the (mutually unsatisfiable) partitive-exclusion
conjunction. -/
def intervFilter (d : EDoc) (l : List Tok) : List Tok :=
  (List.range l.length).filterMap (fun idx =>
    match l.get? idx with
    | none => none
    | some t =>
      let g1 := (PARTITIVES_WITH_P ++ PARTITIVES_OPTIONAL_P).contains t.text &&
        (childrenOf d t).any (fun w => (pmapGet w.text ["of"]).contains w.text)
      let g2 := PARTITIVES_WITH_INDEFINITE_ONLY.contains t.text &&
        (match determinerOf d t with
         | some (.many ws) => !ws.isEmpty &&
             !(ws.any (fun w => get_morph w "Definite" == some "Ind"))
         | _ => false)
      let g3 := PARTITIVES_WITH_INDEFINITE_ONLY.contains t.text &&
        (match determinerOf d t with
         | some (.one w) => !(get_morph w "Definite" == some "Ind")
         | _ => false)
      let g4 := PARTITIVES_OPTIONAL_P.contains t.text && !(childrenOf d t).isEmpty
      let keep :=
        (match l.get? (idx+1) with
         | none => true
         | some nxt => nxt.tag_ != t.tag_ && nxt.pos_ != t.pos_) &&
        ["NOUN", "PROPN"].contains t.pos_ &&
        !(["compound", "nmod"].contains t.dep_) &&
        !(g1 && g2 && g3 && g4)
      if keep then some t else none)

/-- `EDoc.main_subject_verb_interveners` (lines 1081-1161).  Note the
asymmetry in the source: for a partitive-containing subject the slice lower
bound is `max(t.i) + 1`, while otherwise it is `_main_subject_index + 1 =
(last subject position + 1) + 1`. -/
def main_subject_verb_interveners (d : EDoc) : Exc (List Tok) := do
  let sv ← main_subject d
  let s : List (Option Tok) := match sv with
    | none => [none]
    | some (.one t) => [some t]
    | some (.many l) => l.map some
  let anyPart ← excAnyM (fun t? => match t? with
    | none => throw "AttributeError: NoneType has no attribute text"
    | some t => pure (ALL_PARTITIVES.contains t.text)) s
  let s_loc? ←
    if anyPart then do
      let sT ← excMapM (fun t? => match t? with
        | none => throw "AttributeError: NoneType has no attribute text"
        | some t => pure t) s
      let parts := sT.filter (fun t => ALL_PARTITIVES.contains t.text)
      let mut ext : List TokOrList := []
      for p in parts do
        ext := ext ++ [← get_partitive_head_noun d (docFuel d) p]
      let sFlat := sT ++ flattenTL ext
      pure (some (← pyMaxI sFlat))
    else main_subject_index d
  match s_loc? with
  | none => pure []
  | some s_loc => do
    let v ← match ← main_verb d with
      | some v => pure v
      | none => throw "AttributeError: NoneType has no attribute i"
    let v_loc := v.i
    if s_loc + 1 ≥ v_loc then pure []
    else
      let interveners := (d.toks.drop (s_loc + 1)).take (v_loc - (s_loc + 1))
      if interveners.isEmpty then pure interveners
      else pure (intervFilter d interveners)

/-! ### Noun number resolution (`EDoc._get_noun_number`,
`EDoc._get_partitive_noun_number`, `EDoc._get_list_noun_number`,
spacyutils.py lines 1604-1843). -/

/-- The `deps` keyword of the number helpers: only `SUBJ_DEPS` (the default)
and `OBJ_DEPS` are ever passed. -/
inductive DepsArg where
  | subj
  | obj
deriving Repr, DecidableEq

/-- The dependency list selected by a `deps` argument. -/
def DepsArg.list : DepsArg → List String
  | .subj => SUBJ_DEPS
  | .obj => OBJ_DEPS

/-- `Counter([t.dep_ for t in s])[dep]`. -/
def depCount (s : List Tok) (dep : String) : Nat :=
  (s.filter (fun t => t.dep_ == dep)).length

mutual

/-- `EDoc._get_noun_number` (lines 1604-1684). -/
def get_noun_number (d : EDoc) : Nat → Option TokOrList → DepsArg → Exc String
  | 0, _, _ => .error "RecursionError: get_noun_number"
  | fuel+1, sv, deps => do
    match sv with
    | none => pure "Sing"
    | some (.many l) =>
      if l.length > 1 then get_list_noun_number d fuel l deps
      else throw "AttributeError: list object has no attribute is_verb"
    | some (.one s) =>
      if is_verb s && !(can_be_inflected s) then pure "Sing"
      else if ["csubj", "csubjpass"].contains s.dep_ ||
              (OBJ_DEPS.contains s.dep_ && ["WP", "WD", "WDT"].contains s.tag_) then
        pure "Sing"
      else if ALL_PARTITIVES.contains s.text then
        get_partitive_noun_number d fuel s .subj
      else
        let dv := determinerOf d s
        let listDetBranch : Bool :=
          match dv with
          | some (.many ds) =>
            (!ds.isEmpty) &&
            (match (ds.filter (fun t => DET_TAGS.contains t.tag_)) with
             | [] => false
             | w :: _ => (get_morph w "Number").isSome && !(tokenInStringList w ALL_PARTITIVES))
          | _ => false
        if listDetBranch then
          match dv with
          | some (.many ds) =>
            (match (ds.filter (fun t => DET_TAGS.contains t.tag_)) with
             | w :: _ => pure ((get_morph w "Number").getD "")
             | [] => pure "")
          | _ => pure ""
        else
          let singleDetBranch : Bool :=
            match dv with
            | some (.one w) =>
              (get_morph w "Number").isSome && DET_TAGS.contains w.tag_ &&
              !(ALL_PARTITIVES.contains w.text)
            | _ => false
          if singleDetBranch then
            match dv with
            | some (.one w) => pure ((get_morph w "Number").getD "")
            | _ => pure ""
          else if PLURALS_WITH_NO_DETERMINERS.contains s.text &&
            (match dv with
             | none => true
             | some (.one w) => w.text == "all"
             | some (.many ds) => ds.isEmpty) then
            pure "Plur"
          else
            match get_morph s "Number" with
            | some n => pure n
            | none =>
              let adjEntry : Option (String × String) :=
                NUMBERS_FOR_ADJECTIVES_USED_AS_NOUNS.find? (fun p => p.1 = s.text)
              if s.pos_ == "ADJ" && adjEntry.isSome then
                pure ((adjEntry.map (fun p => p.2)).getD "")
              else pure "Sing"

/-- The `process_default` helper of `_get_partitive_noun_number`
(lines 1703-1771). -/
def ppn_process_default (d : EDoc) (s : Tok) : Exc String := do
  let dv := determinerOf d s
  let ds : List Tok := match dv with
    | some (.many l) => l
    | some (.one t) => [t]
    | none => []
  if ["number"].contains s.text &&
     ds.any (fun t => get_morph t "Definite" == some "Ind") &&
     (childrenOf d s).any (fun t => (pmapGet t.text ["of"]).contains t.text) then
    pure "Plur"
  else if s.pos_ == "ADJ" &&
       ((childrenOf d s).any (fun t => t.text == "most") ||
        get_morph s "Degree" == some "Sup") then
    pure "Plur"
  else
    match get_morph s "Number" with
    | some n => pure n
    | none =>
      if ["Some", "some", "Any", "any"].contains s.text then pure "Plur"
      else if is_verb s && !(can_be_inflected s) then pure "Sing"
      else
        let detBranch : Bool :=
          (!ds.isEmpty) &&
          (match ds.filter (fun t => DET_TAGS.contains t.tag_) with
           | [] => false
           | w :: _ => (get_morph w "Number").isSome && !(tokenInStringList w ALL_PARTITIVES))
        if detBranch then
          match ds.filter (fun t => DET_TAGS.contains t.tag_) with
          | w :: _ => pure ((get_morph w "Number").getD "")
          | [] => pure ""
        else pure "Sing"

/-- `EDoc._get_partitive_noun_number` (lines 1686-1783). -/
def get_partitive_noun_number (d : EDoc) : Nat → Tok → DepsArg → Exc String
  | 0, _, _ => .error "RecursionError: get_partitive_noun_number"
  | fuel+1, s, deps => do
    if ALL_PARTITIVES.contains s.text then do
      let head_noun ← get_partitive_head_noun d (docFuel d) s
      if head_noun.truthy then
        match head_noun with
        | .many [x] => ppn_process_default d x
        | .one x => ppn_process_default d x
        | .many l => get_list_noun_number d fuel l deps
      else ppn_process_default d s
    else throw "ValueError: _get_partitive_noun_number on a non-partitive subject"

/-- `EDoc._get_list_noun_number` (lines 1785-1843). -/
def get_list_noun_number (d : EDoc) : Nat → List Tok → DepsArg → Exc String
  | 0, _, _ => .error "RecursionError: get_list_noun_number"
  | fuel+1, s, deps => do
    match s with
    | [x] => get_noun_number d fuel (some (.one x)) .subj
    | _ =>
      if deps.list.any (fun dep => depCount s dep == 1) && depCount s "attr" == 1 then
        let nums : List (Option String) := s.map (fun t =>
          if !(is_verb t && can_be_inflected t) then get_morph t "Number" else some "Sing")
        if nums.all (fun n => n == some "Sing") then pure "Sing"
        else do
          let verbNum ←
            if deps == DepsArg.subj then do
              match ← main_verb d with
              | none => throw "AttributeError: NoneType has no attribute get_morph"
              | some v => pure (get_morph v "Number")
            else pure none
          match verbNum with
          | some n => pure n
          | none => do
            let s0 ← pyNth s 0
            if ALL_PARTITIVES.contains s0.text then
              get_partitive_noun_number d fuel s0 .subj
            else
              match (s.map (fun t => get_morph t "Number")).foldl
                  (fun acc n => match acc with | some _ => acc | none => n) none with
              | some n => pure n
              | none => pure "Sing"
      else if depCount s "expl" == 1 && OBJ_DEPS.any (fun dep => depCount s dep == 1) then do
        let dlist := OBJ_DEPS.filter (fun dep => depCount s dep == 1 && dep != "expl")
        let s2 := s.filter (fun t => dlist.contains t.dep_)
        match s2 with
        | [x] => get_noun_number d fuel (some (.one x)) .subj
        | l => get_list_noun_number d fuel l .subj
      else pure "Plur"

end

/-- `EDoc.main_subject_number` (lines 1026-1035): trust the main verb's
inflected number when present, otherwise resolve the subject's number. -/
def main_subject_number (d : EDoc) : Exc String := do
  let sv ← main_subject d
  match ← main_verb d with
  | none => throw "AttributeError: NoneType has no attribute get_morph"
  | some v =>
    match get_morph v "Number" with
    | some n => pure n
    | none => get_noun_number d (docFuel d) sv .subj

/-- `EDoc.main_subject_verb_distractors` (lines 1209-1223): interveners whose
number feature (defaulting to singular) mismatches the subject's number. -/
def main_subject_verb_distractors (d : EDoc) : Exc (List Tok) := do
  let n ← main_subject_number d
  let interveners ← main_subject_verb_interveners d
  pure (interveners.filter (fun t => ((get_morph t "Number").getD "Sing") != n))

/-- `EDoc.has_main_subject_verb_distractors` (lines 1226-1228). -/
def has_main_subject_verb_distractors (d : EDoc) : Exc Bool := do
  pure (!(← main_subject_verb_distractors d).isEmpty)

/-- `EDoc.main_subject_verb_distractors_determiners` (lines 1270-1285); note
this variant filters on a bare `!=` against the possibly-absent number
feature and collects children of `det`-labelled distractors. -/
def main_subject_verb_distractors_determiners (d : EDoc) : Exc (List Tok) := do
  let n ← main_subject_number d
  let interveners ← main_subject_verb_interveners d
  let distractors := interveners.filter (fun t =>
    match get_morph t "Number" with
    | none => true
    | some m => m != n)
  pure (((distractors.filter (fun t => t.dep_ == "det")).map (fun t => childrenOf d t)).flatten)

/-! ### Main clause verbs and polar-question eligibility
(`EDoc.main_clause_verbs`, `EDoc.can_form_polar_question`,
`EDoc._can_be_inverted_subject`, spacyutils.py lines 1358-1514, 2385-2422). -/

/-- Ascending deduplicated positions (`set(t.i for t in vs)`; iteration
order of a Python small-int set is immaterial here because the result is
re-sorted by position immediately afterwards). -/
def insNat (n : Nat) : List Nat → List Nat
  | [] => [n]
  | m :: ms => if n < m then n :: m :: ms else if n == m then m :: ms else m :: insNat n ms

/-- Sorted set of positions. -/
def sortedUnique (l : List Nat) : List Nat := l.foldl (fun acc n => insNat n acc) []

/-- The source's `for v in vs: vs.extend([t for t in self._get_conjuncts(v)
if t.is_aux or t.is_verb])` (line 1366-1367): Python iterates the growing
list by index, so appended members are processed too. -/
def conjExtendLoop (d : EDoc) : Nat → List Tok → Nat → Exc (List Tok)
  | 0, _, _ => .error "divergence: main_clause_verbs extension loop"
  | fuel+1, vs, j =>
    if h : j < vs.length then do
      let v := vs.get ⟨j, h⟩
      let more ← get_conjuncts d (docFuel d) v
      conjExtendLoop d fuel (vs ++ more.filter (fun t => is_aux t || is_verb t)) (j+1)
    else pure vs

/-- `EDoc.main_clause_verbs` (lines 1358-1389). -/
def main_clause_verbs (d : EDoc) : Exc (List Tok) := do
  let v ← match ← main_verb d with
    | some v => pure v
    | none => throw "AttributeError: NoneType has no attribute rights"
  let c1 ← get_conjuncts d (docFuel d) v
  let vs0 := [v] ++ c1.filter (fun t => is_aux t || is_verb t)
  let vs1 ←
    if is_aux v then do
      match rootOf d with
      | some r => do pure (vs0 ++ (← get_conjuncts d (docFuel d) r))
      | none => throw "AttributeError: NoneType has no attribute rights"
    else pure vs0
  let vs2 ← conjExtendLoop d (docFuel d * docFuel d + 2) vs1 0
  let vs3 := vs2.map (fun t =>
    match (childrenOf d t).filter (fun c => ["aux", "auxpass"].contains c.dep_) with
    | [] => t
    | c :: _ => c)
  let uniq := sortedUnique (vs3.map (fun t => t.i))
  let mut deduped : List Tok := []
  for k in uniq do
    let verbs := vs3.filter (fun t => t.i == k && (is_aux t || is_verb t))
    match verbs with
    | [] => pure ()
    | w :: _ =>
      if !(deduped.any (fun t => t.i == k)) then
        deduped := deduped ++ [w]
  pure ((sortByI deduped).filter (fun t => t.tag_ != "VBG"))

/-- `EDoc._can_be_inverted_subject` (lines 2385-2422): reject clausal
subjects headed by a non-gerund verb, and subjects that follow their verb. -/
def can_be_inverted_subject (sv : TokOrList) (v : Tok) : Exc Bool := do
  let s ← match sv with
    | .one t => pure [t]
    | .many l => do pure [← pyNth l 0]
  if s.any (fun t =>
      (!(["VBG", "VBN", "VB", "VBZ"].contains t.tag_) ||
       get_morph t "VerbForm" == some "Inf") &&
      ["csubj", "csubjpass"].contains t.dep_) then
    pure false
  else if s.any (fun t => v.i < t.i) then pure false
  else pure true

/-- Result of the upward subject search in `can_form_polar_question`. -/
inductive SubjSearch where
  | found (sv : TokOrList) (nv : Tok)
  | rejected
deriving Repr

/-- The first `while not next_v.subject` loop (lines 1424-1439): step up the
head chain, rejecting at the root or beyond the bounded search depth. -/
def find_subject_up (d : EDoc) : Nat → Tok → Nat → Exc SubjSearch
  | 0, _, _ => .error "divergence: subject search"
  | fuel+1, nv, limit => do
    let stepUp : Exc SubjSearch :=
      let nv2 := headTok d nv
      if nv2.dep_ == "ROOT" then pure .rejected
      else
        let limit2 := limit + 1
        if limit2 > LOOK_FOR_SUBJECTS_LIMIT then pure .rejected
        else find_subject_up d fuel nv2 limit2
    match ← subjectOf d (docFuel d) nv with
    | some sv =>
      if sv.truthy then pure (.found sv nv)
      else stepUp
    | none => stepUp

/-- The second `while not tmp_v.subject` loop (lines 1475-1485): no root
check, only the bounded search depth. -/
def find_subject_up2 (d : EDoc) : Nat → Tok → Nat → Exc (Option (TokOrList × Tok))
  | 0, _, _ => .error "divergence: subject search"
  | fuel+1, tv, limit => do
    let step2 : Exc (Option (TokOrList × Tok)) :=
      let tv2 := headTok d tv
      let limit2 := limit + 1
      if limit2 > LOOK_FOR_SUBJECTS_LIMIT then pure none
      else find_subject_up2 d fuel tv2 limit2
    match ← subjectOf d (docFuel d) tv with
    | some sv =>
      if sv.truthy then pure (some (sv, tv))
      else step2
    | none => step2

/-- Insert into the `all_v_lemmas` map: union a lemma tag into the set kept
at a subject position (lines 1494-1498). -/
def auxMapAdd (m : List (Nat × List String)) (k : Nat) (s : String) : List (Nat × List String) :=
  match m.find? (fun p => p.1 == k) with
  | some _ => m.map (fun q => if q.1 == k then (q.1, if q.2.contains s then q.2 else q.2 ++ [s]) else q)
  | none => m ++ [(k, [s])]

/-- The `all_v_lemmas` accumulation loop of `can_form_polar_question`
(lines 1472-1498): for each main-clause verb, find its subject up the head
chain, key by the subject's first position, and record the auxiliary that
verb would need (`lemma_pos` for an auxiliary, `do_AUX` otherwise);
`none` models the loop's own `return False` on a failed search. -/
def aux_lemma_map (d : EDoc) (vs : List Tok) : Exc (Option (List (Nat × List String))) := do
  let mut m : List (Nat × List String) := []
  for v in vs do
    match ← find_subject_up2 d (LOOK_FOR_SUBJECTS_LIMIT + 2) v 0 with
    | none => return none
    | some (sv, _) =>
      let tmp ← match sv with
        | .many l => pyNth (sortByI l) 0
        | .one t => pure t
      m := auxMapAdd m tmp.i (if is_aux v then v.lemma_ ++ "_" ++ v.pos_ else "do_AUX")
  pure (some m)

/-- The subject-collection loop of `can_form_polar_question`
(lines 1416-1444): for each main-clause verb, take its own subject when it
is invertible, otherwise search up the head chain; `none` models the
source's `return False`. -/
def collect_inverted_subjects (d : EDoc) : List Tok → Exc (Option (List TokOrList))
  | [] => .ok (some [])
  | v :: rest => do
    let sv? ← subjectOf d (docFuel d) v
    let step ←
      match sv? with
      | some sv =>
        if sv.truthy then
          if ← can_be_inverted_subject sv v then pure (some sv) else pure none
        else
          match ← find_subject_up d (LOOK_FOR_SUBJECTS_LIMIT + 2) v 0 with
          | .rejected => pure none
          | .found sv2 nv2 => do
            if ← can_be_inverted_subject sv2 nv2 then pure (some sv2) else pure none
      | none =>
        match ← find_subject_up d (LOOK_FOR_SUBJECTS_LIMIT + 2) v 0 with
        | .rejected => pure none
        | .found sv2 nv2 => do
          if ← can_be_inverted_subject sv2 nv2 then pure (some sv2) else pure none
    match step with
    | none => pure none
    | some sv =>
      match ← collect_inverted_subjects d rest with
      | none => pure none
      | some ss => pure (some (sv :: ss))

/-- `EDoc.can_form_polar_question` (lines 1391-1514). -/
def can_form_polar_question (d : EDoc) : Exc Bool := do
  let last ← match d.toks.getLast? with
    | some t => pure t
    | none => throw "IndexError: empty document"
  if !([".", "!"].contains last.text) || last.dep_ != "punct" then return false
  let vs ← main_clause_verbs d
  if vs.isEmpty then return false
  if vs.any (fun v => pyStartsWith v.text "\x27") then return false
  match ← collect_inverted_subjects d vs with
  | none => return false
  | some ss =>
    let ssF := flattenTL ss
    let dsF := flattenTL (ssF.filterMap (fun s => determinerOf d s))
    if (ssF ++ dsF).any (fun s => s.text == "which") then return false
    if vs.any (fun t => get_morph t "VerbForm" == some "Inf") then return false
    if vs.any (fun t => !(is_aux t) && !(can_be_inflected t)) then return false
    match ← aux_lemma_map d vs with
    | none => return false
    | some m =>
      if m.any (fun p => p.2.length > 1) then return false
      pure true

/-! ### Reinflection (`EToken.reinflect`, `EToken.singularize`,
`EToken.pluralize`, `EToken.renumber`, spacyutils.py lines 500-619), and
the sentence-level wrappers (lines 1868-2132). -/

/-- The external `pattern.en` collaborators consumed by the reinflection
engine (out of the repository's scope). -/
structure Ext where
  conjugate : String → List (String × Option String) → String
  singularize : String → String
  pluralize : String → String

/-- `CONJUGATE_MAP.get(text, {}).get(number, {}).get(tense, {})` — every
lookup step can miss (a `None` key always misses). -/
def cmGet (text : String) (num tense : Option String) : Option String := do
  let buckets ← (CONJUGATE_MAP.find? (fun p => p.1 = text)).map (fun p => p.2)
  let n ← num
  let tb ← (buckets.find? (fun q => q.1 = n)).map (fun q => q.2)
  let t ← tense
  (tb.find? (fun r => r.1 = t)).map (fun r => r.2)

/-- `EToken.reinflect` (lines 532-607).  The *used to* guard compares the
`tense` argument against the literal `PRESENT` constant before any
normalization through `TENSE_MAP`. -/
def reinflect (ext : Ext) (d : EDoc) (t : Tok) (number tense : Option String)
    (kwargs : List (String × Option String) := []) : Exc Tok := do
  if !(can_be_inflected t) then
    throw "ValueError: token cannot be reinflected; not a finite verb"
  if number.isNone && tense.isNone then
    throw "ValueError: at least one of number and tense must not be None"
  let number := match number with | none => get_morph t "Number" | some n => some n
  let tense := match tense with | none => get_morph t "Tense" | some x => some x
  if t.text == "used" && (childrenOf d t).any (fun c => c.dep_ == "xcomp") &&
     tense == some PRESENT then
    throw "ValueError: used to cannot be made present tense"
  let cNum := number.bind (dget NUMBER_MAP)
  let cTense := tense.bind (dget TENSE_MAP)
  let c_kwargs := dictMerge
    (([("number", cNum), ("tense", cTense)] : List (String × Option String)).filter
      (fun p => p.2.isSome)) kwargs
  let cNumF := (c_kwargs.find? (fun p => p.1 = "number")).bind (fun p => p.2)
  let cTenseF := (c_kwargs.find? (fun p => p.1 = "tense")).bind (fun p => p.2)
  let text :=
    match cmGet t.text cNumF cTenseF with
    | some x => x
    | none =>
      match cmGet t.text (some "any") cTenseF with
      | some x => x
      | none => ext.conjugate t.text c_kwargs
  if text == "" then
    throw "ParseError: reinflection was unsuccessful"
  let newText :=
    if !t.is_sent_start then text
    else match text.data with
      | [] => text
      | c :: _ => c.toUpper.toString ++ strTail text
  let n : Option String :=
    if number.bind (dget NUMBER_MAP) == some SG then some "Sing"
    else if number.bind (dget NUMBER_MAP) == some PL then some "Plur"
    else none
  let tm : Option String :=
    if tense.bind (dget TENSE_MAP) == some PAST then some "Past"
    else if tense.bind (dget TENSE_MAP) == some PRESENT then some "Pres"
    else none
  let m_kwargs : List (String × Option String) := [("Number", n), ("Tense", tm)]
  let m_kwargs :=
    if tense == some INFINITIVE
    then dictMerge m_kwargs [("VerbForm", some "Inf"), ("Tense", none)]
    else m_kwargs
  let m_kwargs := dictMerge m_kwargs kwargs
  let t1 := set_morph { t with text := newText } m_kwargs
  let t2 :=
    if tense.bind (dget TENSE_MAP) == some PAST then { t1 with tag_ := "VBD" }
    else if tense.bind (dget TENSE_MAP) == some INFINITIVE then { t1 with tag_ := "VB" }
    else if tense.bind (dget TENSE_MAP) == some PRESENT then
      if number.bind (dget NUMBER_MAP) == some SG then { t1 with tag_ := "VBZ" }
      else if number.bind (dget NUMBER_MAP) == some PL then { t1 with tag_ := "VBP" }
      else t1
    else t1
  pure t2

/-- `EToken.singularize` (lines 514-522). -/
def singularizeTok (ext : Ext) (t : Tok) : Exc Tok := do
  if get_morph t "Number" == some "Sing" then pure t
  else do
    let lowered := pyLower t.text
    let newText := (dget SINGULARIZE_MAP lowered).getD (ext.singularize lowered)
    let c0 ← pyStrHead newText
    let newText := (if t.is_sent_start then c0.toUpper.toString else c0.toString) ++ strTail newText
    pure { set_morph { t with text := newText } [("Number", some "Sing")] with tag_ := "NN" }

/-- `EToken.pluralize` (lines 524-530). -/
def pluralizeTok (ext : Ext) (t : Tok) : Exc Tok := do
  if get_morph t "Number" == some "Plur" then pure t
  else do
    let lowered := pyLower t.text
    let newText := (dget PLURALIZE_MAP lowered).getD (ext.pluralize lowered)
    let c0 ← pyStrHead newText
    let newText := (if t.is_sent_start then c0.toUpper.toString else c0.toString) ++ strTail newText
    pure { set_morph { t with text := newText } [("Number", some "Plur")] with tag_ := "NNS" }

/-- `EToken.renumber` (lines 500-512): `NUMBER_MAP[number]` raises on an
unknown key. -/
def renumberTok (ext : Ext) (t : Tok) (number : String) : Exc Tok := do
  if !(can_be_numbered t) then
    throw "ValueError: token cannot be renumbered; not a numbered det/noun"
  match dget NUMBER_MAP number with
  | none => throw "KeyError: NUMBER_MAP"
  | some nm =>
    if nm == SG then singularizeTok ext t
    else if nm == PL then pluralizeTok ext t
    else pure t

/-- One entry of `HOMOPHONOUS_VERBS` (constants.py lines 2017-2121): the
nested number/tense table plus the context condition, expressed over the
document as the source lambdas are over a parsed token. -/
structure HomEntry where
  table : List (String × List (String × String))
  condition : EDoc → Tok → Exc Bool

/-- `lambda t: t.is_intransitive and not [to for to in t.children if
(to.dep_ == 'prep' and to.text == 'about') or (to.dep_ == 'ccomp')]`. -/
def lieCondition (d : EDoc) (t : Tok) : Exc Bool := do
  if ← is_intransitive_tok d t then
    pure ((childrenOf d t).filter (fun c =>
      (c.dep_ == "prep" && c.text == "about") || c.dep_ == "ccomp")).isEmpty
  else pure false

/-- The `knewest` condition: the subject (or some member of a subject list)
is archaic second-person `thou`; a missing subject raises. -/
def knewestCondition (d : EDoc) (t : Tok) : Exc Bool := do
  match ← subjectOf d (docFuel d) t with
  | none => throw "AttributeError: NoneType has no attribute text"
  | some (.one s) => pure (pyLower s.text == "thou")
  | some (.many l) => pure (l.any (fun w => pyLower w.text == "thou"))

/-- `HOMOPHONOUS_VERBS` (constants.py lines 2017-2121). -/
def HOMOPHONOUS_VERBS : List (String × HomEntry) :=
  [("lay", { table := [("singular", [("present", "lies")]),
                       ("plural", [("present", "lie")]),
                       ("any", [("infinitive", "lie")])]
             condition := fun d t => is_intransitive_tok d t }),
   ("lie", { table := [("any", [("past", "lay")])]
             condition := lieCondition }),
   ("lies", { table := [("any", [("past", "lay")])]
              condition := lieCondition }),
   ("secreted", { table := [("singular", [("present", "secrets")]),
                            ("plural", [("present", "secret")]),
                            ("any", [("infinitive", "secret")])]
                  condition := fun d t =>
                    pure ((childrenOf d t).any (fun c => c.dep_ == "prt" && c.text == "away")) }),
   ("tear", { table := [("any", [("past", "teared")])]
              condition := fun d t => is_intransitive_tok d t }),
   ("tears", { table := [("any", [("past", "teared")])]
               condition := fun d t => is_intransitive_tok d t }),
   ("fell", { table := [("singular", [("present", "fells")]),
                        ("plural", [("present", "fell")]),
                        ("any", [("past", "felled"), ("infinitive", "fell")])]
              condition := fun d t => is_transitive_tok d t }),
   ("speed", { table := [("any", [("past", "sped")])]
               condition := fun d t => is_intransitive_tok d t }),
   ("speeds", { table := [("any", [("past", "sped")])]
                condition := fun d t => is_intransitive_tok d t }),
   ("can", { table := [("any", [("past", "canned")])]
             condition := fun _ t => pure (!(is_aux t)) }),
   ("knewest", { table := [("any", [("present", "knoweth"), ("past", "knewest")])]
                 condition := knewestCondition }),
   ("fit", { table := [("any", [("past", "fitted")])]
             condition := fun d t =>
               pure ((childrenOf d t).any (fun c => c.text == "out")) }),
   ("fits", { table := [("any", [("past", "fitted")])]
              condition := fun d t =>
                pure ((childrenOf d t).any (fun c => c.text == "out")) })]

/-- `HOMOPHONOUS_VERBS[text].get(bucket, {}).get(tense, {})`. -/
def homGet (e : HomEntry) (bucket tense : String) : Option String := do
  let tb ← (e.table.find? (fun q => q.1 = bucket)).map (fun q => q.2)
  (tb.find? (fun r => r.1 = tense)).map (fun r => r.2)

/-- `EDoc.reinflect_main_verb` (lines 1868-1965).  The do-supported
*use(d) to* present-tense guard and the homophonous-verb special path are
both checked inside the per-verb loop exactly as in the source; per-verb
mutation becomes an updated token list handed to `copy_with_replace`. -/
def reinflect_main_verb (ext : Ext) (d : EDoc) (number tense : String)
    (conjoined : Bool := true) (kwargs : List (String × Option String) := []) : Exc EDoc := do
  let mv ← match ← main_verb d with
    | some v => pure v
    | none => throw "AttributeError: NoneType has no attribute can_be_inflected"
  if !(can_be_inflected mv) || get_morph mv "VerbForm" == some "Inf" then
    throw "ValueError: the main verb is non-finite; unable to reinflect"
  let all_vs ← if conjoined then main_clause_verbs d else pure [mv]
  if all_vs.any (fun v =>
      v.lemma_ == "do" && is_aux v &&
      ["use", "used"].contains (headTok d v).text &&
      (childrenOf d (headTok d v)).any (fun c => c.dep_ == "xcomp") &&
      tense == PRESENT) then
    throw "ValueError: cannot make present tense; use to cannot be present tense"
  let tm ← match dget TENSE_MAP tense with
    | some x => pure x
    | none => throw "KeyError: TENSE_MAP"
  let mut newVs : List Tok := []
  let mut wsMod : List Tok := []
  for v in all_vs do
    if (get_morph v "Tense").bind (dget TENSE_MAP) != some tm then
      let startsApos := pyStartsWith v.text "\x27"
      let homEntry? : Option HomEntry ←
        match HOMOPHONOUS_VERBS.find? (fun p => p.1 = v.text) with
        | none => pure none
        | some p => do
          if ← p.2.condition d v then pure (some p.2) else pure none
      let v2 ←
        match homEntry? with
        | some e =>
          let m_number := if dget NUMBER_MAP number == some SG then "Sing" else "Plur"
          let m_tense := if dget TENSE_MAP tense == some PRESENT then "Pres" else "Past"
          let d_number := if number == "Sing" then "singular" else "plural"
          let d_tense := if tense == PRESENT then "present" else "past"
          let morph_kwargs :=
            (dictMerge [("Number", some m_number), ("Tense", some m_tense)] kwargs).filter
              (fun p => p.2.isSome)
          match homGet e d_number d_tense with
          | some newText => pure (set_morph { v with text := newText } morph_kwargs)
          | none =>
            match homGet e "any" d_tense with
            | some newText => pure (set_morph { v with text := newText } morph_kwargs)
            | none => reinflect ext d v (some number) (some tense) kwargs
        | none => reinflect ext d v (some number) (some tense) kwargs
      if startsApos && !(pyStartsWith v2.text "\x27") then
        let bwIdx := if v.i == 0 then d.toks.length - 1 else v.i - 1
        let bw ← pyTok d bwIdx
        wsMod := wsMod ++ [{ bw with whitespace_ := " " }]
      newVs := newVs ++ [v2]
    else
      newVs := newVs ++ [v]
  copy_with_replace d (newVs ++ wsMod) none

/-- `EDoc.make_main_verb_past_tense` (lines 1967-1975): when every
main-clause verb is already past, the document itself is returned. -/
def make_main_verb_past_tense (ext : Ext) (d : EDoc) : Exc EDoc := do
  let vs ← main_clause_verbs d
  if vs.all (fun v => get_morph v "Tense" == some "Past") then pure d
  else do
    let n ← main_subject_number d
    reinflect_main_verb ext d n PAST

/-- `EDoc.make_main_verb_present_tense` (lines 1977-1985). -/
def make_main_verb_present_tense (ext : Ext) (d : EDoc) : Exc EDoc := do
  let vs ← main_clause_verbs d
  if vs.all (fun v => get_morph v "Tense" == some "Pres") then pure d
  else do
    let n ← main_subject_number d
    reinflect_main_verb ext d n PRESENT

/-- `EDoc._remove_conjunctions_to_main_subject` (lines 2031-2052).  The
final statement invokes `self._copy_with_remove(indices=range_to_remove)`
without the required `move_deps_to` positional argument of
`_copy_with_remove` (lines 789-793 declare no default), so reaching it
raises `TypeError` before any removal is performed. -/
def remove_conjunctions_to_main_subject (d : EDoc) : Exc EDoc := do
  if !(← has_conjoined_main_subject d) then pure d
  else do
    let s ← match ← main_subject d with
      | some (.many l) => pure l
      | some (.one _) => throw "TypeError: EToken object is not subscriptable"
      | none => throw "TypeError: NoneType object is not subscriptable"
    let s0 ← pyNth s 0
    let starting_index := s0.i
    let remove_until ← pyMaxI (s.drop 1)
    let _range_to_remove := List.range' (starting_index + 1) (remove_until + 1 - (starting_index + 1))
    throw "TypeError: _copy_with_remove missing 1 required positional argument: move_deps_to"

/-- `EDoc._remove_partitive_from_main_subject` (lines 2054-2065):
unconditionally raises `NotImplementedError`. -/
def remove_partitive_from_main_subject (_d : EDoc) : Exc EDoc :=
  .error "NotImplementedError: cannot currently renumber sentences with a partitive subject"

/-- `EDoc.renumber_main_subject` (lines 1987-2029). -/
def renumber_main_subject (ext : Ext) (d : EDoc) (number : String) : Exc EDoc := do
  let conj ← has_conjoined_main_subject d
  let edoc ←
    if conj && dget NUMBER_MAP number == some SG then
      remove_conjunctions_to_main_subject d
    else do
      let isPart ← match ← main_subject d with
        | some (.one t) => pure (ALL_PARTITIVES.contains t.text)
        | some (.many _) => throw "AttributeError: list object has no attribute text"
        | none => throw "AttributeError: NoneType has no attribute text"
      if isPart then do
        if ← has_main_subject_verb_distractors d then
          remove_partitive_from_main_subject d
        else pure d
      else pure d
  let mut tokens : List Tok := []
  match ← main_subject edoc with
  | some (.many l) =>
    for t in l do
      tokens := tokens ++ [← renumberTok ext t number]
  | some (.one t) =>
    tokens := tokens ++ [← renumberTok ext t number]
  | none => throw "AttributeError: NoneType has no attribute renumber"
  let dv ← main_subject_determiner edoc
  let dTruthy := match dv with
    | .single none => false
    | .single (some _) => true
    | .listOf l => !l.isEmpty
  if dTruthy then
    match dv with
    | .listOf l =>
      for x in l do
        match x with
        | some (.one t) => tokens := tokens ++ [← renumberTok ext t number]
        | some (.many _) => throw "AttributeError: list object has no attribute renumber"
        | none => throw "AttributeError: NoneType has no attribute renumber"
    | .single (some (.one t)) => tokens := tokens ++ [← renumberTok ext t number]
    | .single (some (.many _)) => throw "AttributeError: list object has no attribute renumber"
    | .single none => pure ()
  let v ← match ← main_verb edoc with
    | some v => pure v
    | none => throw "AttributeError: NoneType has no attribute reinflect"
  let v2 ← reinflect ext edoc v (some number) none
  tokens := tokens ++ [v2]
  copy_with_replace edoc tokens none

/-- `EDoc.renumber_main_subject_verb_distractors` (lines 2102-2119):
renumber every distractor and distractor determiner; when there are no
distractors the function falls through and returns `None`. -/
def renumber_main_subject_verb_distractors (ext : Ext) (d : EDoc) (number : String) :
    Exc (Option EDoc) := do
  let n ← match dget NUMBER_MAP number with
    | some x => pure x
    | none => throw "KeyError: NUMBER_MAP"
  let f : Tok → Exc Tok :=
    cond (n == SG) (singularizeTok ext)
      (cond (n == PL) (pluralizeTok ext) (fun _ => .error "NameError: f is not defined"))
  let ds0 ← main_subject_verb_distractors d
  let ds ← excMapM f ds0
  let dds0 ← main_subject_verb_distractors_determiners d
  let dds ← excMapM f dds0
  if !ds.isEmpty then do
    pure (some (← copy_with_replace d (ds ++ dds) none))
  else pure none

/-- `EDoc.singularize_main_subject_verb_distractors` (lines 2121-2123). -/
def singularize_main_subject_verb_distractors (ext : Ext) (d : EDoc) : Exc (Option EDoc) :=
  renumber_main_subject_verb_distractors ext d SG

/-- `EDoc.pluralize_main_subject_verb_distractors` (lines 2125-2127). -/
def pluralize_main_subject_verb_distractors (ext : Ext) (d : EDoc) : Exc (Option EDoc) :=
  renumber_main_subject_verb_distractors ext d PL

/-! ### String-phase acceptability filters
(`string_conditions`, `src/core/language_funs/language_funs.py` lines 16-70;
`en_string_conditions`, `src/core/language_funs/en/grammar_funs.py` lines
893-927).  Character classes follow Python string-method semantics on the
ASCII range (every concrete string below is ASCII). -/

def MIN_SENTENCE_LENGTH_IN_CHARS : Nat := 2

def MAX_SENTENCE_LENGTH_IN_WORDS : Nat := 50

def VALID_SENTENCE_ENDING_CHARS : List String := [".", "?", "!"]

def DELIMITERS : List (String × String) := [("(", ")"), ("[", "]"), ("\x7b", "\x7d")]

/-- `string.punctuation`, which is also exactly the character class of the
two `EXCLUSION_REGEXES`. -/
def PUNCT_CHARS : List Char :=
  "!\"\x23$%&\x27()*+,-./:;<=>?@[\\]^_\x60\x7b|\x7d~".data

/-- Python whitespace for `str.split` (ASCII range). -/
def pyIsSpace (c : Char) : Bool := [' ', '\t', '\n', '\r', '\x0b', '\x0c'].contains c

/-- Substring occurrence (`needle in hay`). -/
def strContains (hay needle : String) : Bool :=
  (List.range (hay.data.length + 1)).any (fun i => needle.data.isPrefixOf (hay.data.drop i))

/-- `str.split()` with no separator: split on whitespace runs, no empties. -/
def splitWsAux : List Char → List Char → List String
  | [], acc => if acc.isEmpty then [] else [String.mk acc.reverse]
  | c :: cs, acc =>
    if pyIsSpace c then
      if acc.isEmpty then splitWsAux cs []
      else String.mk acc.reverse :: splitWsAux cs []
    else splitWsAux cs (c :: acc)

def pySplitWs (s : String) : List String := splitWsAux s.data []

/-- Python `str.isupper`: at least one cased character and no lowercase
cased character (cased = alphabetic in the ASCII range). -/
def pyIsUpperStr (s : String) : Bool :=
  s.data.any Char.isAlpha && s.data.all (fun c => !c.isAlpha || c.isUpper)

/-- `\w` of the exclusion regexes (ASCII). -/
def isWordChar (c : Char) : Bool := c.isAlphanum || c == '_'

/-- `re.search` with the first exclusion regex: a punctuation mark
sandwiched between two word characters. -/
def regexWordPunctWordHit (s : String) : Bool :=
  let cs := s.data
  (List.range cs.length).any (fun i =>
    match cs.get? i, cs.get? (i+1), cs.get? (i+2) with
    | some a, some b, some c => isWordChar a && PUNCT_CHARS.contains b && isWordChar c
    | _, _, _ => false)

/-- `re.search` with the second exclusion regex: two adjacent punctuation
marks. -/
def regexPunctPunctHit (s : String) : Bool :=
  let cs := s.data
  (List.range cs.length).any (fun i =>
    match cs.get? i, cs.get? (i+1) with
    | some a, some b => PUNCT_CHARS.contains a && PUNCT_CHARS.contains b
    | _, _ => false)

/-- The balanced-delimiter checks of `string_conditions` (lines 50-65). -/
def delimitersOk (s : String) : Bool :=
  DELIMITERS.all (fun p =>
    let d1 := p.1
    let d2 := p.2
    let c1 : Char := d1.data.headD ' '
    let c2 : Char := d2.data.headD ' '
    (s.data.count c1 == s.data.count c2) &&
    (!(strContains s d1 && strContains s d2) ||
      (match s.data.findIdx? (fun x => x == c2), s.data.findIdx? (fun x => x == c1) with
       | some i2, some i1 => !(i2 < i1)
       | _, _ => true)) &&
    (!(strContains s d2 && strContains s d1) ||
      (match s.data.reverse.findIdx? (fun x => x == c1),
            s.data.reverse.findIdx? (fun x => x == c2) with
       | some j1, some j2 => !(j1 < j2)
       | _, _ => true)))

/-- `string_conditions` (`language_funs.py` lines 16-70). -/
def string_conditions (s : String) : Exc Bool := do
  if s.length < MIN_SENTENCE_LENGTH_IN_CHARS then return false
  let c0 ← pyStrHead s
  if c0.isLower then return false
  let w0 ← pyNth (pySplitWs s) 0
  if pyIsUpperStr w0 then return false
  if (pySplitWs s).length > MAX_SENTENCE_LENGTH_IN_WORDS then return false
  if EXCLUSION_STRINGS.any (fun c => strContains s c) then return false
  if !(VALID_SENTENCE_ENDING_CHARS.any (fun c => pyEndsWith s c)) then return false
  if !(delimitersOk s) then return false
  if regexWordPunctWordHit s || regexPunctPunctHit s then return false
  pure true

/-- The prefix-word regexes of `EN_EXCLUDE_REGEXES`
(`(^|\s)(re|pre|co|dis|un|mis|mal)\s` and its capitalized twin). -/
def prefixRegexHit (pres : List String) (s : String) : Bool :=
  let cs := s.data
  (List.range cs.length).any (fun i =>
    (i == 0 || (match cs.get? (i-1) with | some c => pyIsSpace c | none => false)) &&
    pres.any (fun p =>
      p.data.isPrefixOf (cs.drop i) &&
      (match cs.get? (i + p.length) with | some c => pyIsSpace c | none => false)))

/-- `str.translate` removing `string.punctuation`, then `str.isascii`. -/
def asciiAfterPunctRemoval (s : String) : Bool :=
  (s.data.filter (fun c => !(PUNCT_CHARS.contains c))).all (fun c => c.toNat < 128)

/-- `en_string_conditions` (`en/grammar_funs.py` lines 893-927); returns the
string itself on acceptance and `False` (here `none`) otherwise. -/
def en_string_conditions (s : String) : Exc (Option String) := do
  if !(← string_conditions s) then return none
  if EN_STOP_STRINGS.any (fun c => strContains s c) then return none
  if strContains (String.mk s.data.dropLast) "." then return none
  if !(asciiAfterPunctRemoval s) then return none
  let cm2 ← if s.length ≥ 2 then pyNth s.data (s.length - 2)
            else throw "IndexError: string index out of range"
  if cm2.isUpper then return none
  if EN_ABBREVIATIONS.any (fun abb => pyEndsWith s (" " ++ abb)) then return none
  if prefixRegexHit ["re", "pre", "co", "dis", "un", "mis", "mal"] s ||
     prefixRegexHit ["Re", "Pre", "Co", "Dis", "Un", "Mis", "Mal"] s then return none
  pure (some s)

/-! ### Concrete documents used by the witnesses and counterexamples.
Every token is a fixed point of the construction-time corrections
(`WRONG_LEMMAS`, `INCORRECT_MORPHS`, `INCORRECT_MORPHS_PRESENT_TENSE`,
`_format_token`), so the attribute views below are exactly what the
resolver reads. -/

/-- Token builder for the example documents. -/
def mkTok (i : Nat) (text ws tag pos : String) (morph : List (String × String))
    (lem dep : String) (head : Nat) : Tok :=
  { i, text, whitespace_ := ws, tag_ := tag, pos_ := pos, morph, lemma_ := lem,
    dep_ := dep, head, head_i := none, is_sent_start := i == 0, ent_iob_ := "O" }

/-- Stand-in for the external `pattern.en` collaborators; no theorem below
depends on its behaviour (the exercised paths never reach it or hit the
repository's own exception tables first). -/
def extStub : Ext :=
  { conjugate := fun t _ => t
    singularize := fun s => s
    pluralize := fun s => s }

/-- "The dog slept ." -/
def exDogPast : EDoc := .mk
  [mkTok 0 "The" " " "DT" "DET" [("Definite", "Def"), ("PronType", "Art")] "the" "det" 1,
   mkTok 1 "dog" " " "NN" "NOUN" [("Number", "Sing")] "dog" "nsubj" 2,
   mkTok 2 "slept" "" "VBD" "VERB" [("Tense", "Past"), ("VerbForm", "Fin")] "sleep" "ROOT" 2,
   mkTok 3 "." "" "." "PUNCT" [("PunctType", "Peri")] "." "punct" 2] none

/-- "The dog sleeps ." -/
def exDogPres : EDoc := .mk
  [mkTok 0 "The" " " "DT" "DET" [("Definite", "Def"), ("PronType", "Art")] "the" "det" 1,
   mkTok 1 "dog" " " "NN" "NOUN" [("Number", "Sing")] "dog" "nsubj" 2,
   mkTok 2 "sleeps" "" "VBZ" "VERB"
     [("Number", "Sing"), ("Tense", "Pres"), ("VerbForm", "Fin")] "sleep" "ROOT" 2,
   mkTok 3 "." "" "." "PUNCT" [("PunctType", "Peri")] "." "punct" 2] none

/-- "The cake was eaten ." (passive: the tensed auxiliary is `was`). -/
def exCake : EDoc := .mk
  [mkTok 0 "The" " " "DT" "DET" [("Definite", "Def"), ("PronType", "Art")] "the" "det" 1,
   mkTok 1 "cake" " " "NN" "NOUN" [("Number", "Sing")] "cake" "nsubjpass" 3,
   mkTok 2 "was" " " "VBD" "AUX"
     [("Mood", "Ind"), ("Tense", "Past"), ("VerbForm", "Fin"), ("Number", "Sing")]
     "be" "auxpass" 3,
   mkTok 3 "eaten" "" "VBN" "VERB" [("Aspect", "Perf"), ("VerbForm", "Part")] "eat" "ROOT" 3,
   mkTok 4 "." "" "." "PUNCT" [("PunctType", "Peri")] "." "punct" 3] none

/-- "Hello ." (interjection root: no main verb). -/
def exHello : EDoc := .mk
  [mkTok 0 "Hello" "" "UH" "INTJ" [] "hello" "ROOT" 0,
   mkTok 1 "." "" "." "PUNCT" [("PunctType", "Peri")] "." "punct" 0] none

/-- "He can go and likes swimming ." — the two main-clause verbs share the
subject at position 0 but need different auxiliaries for inversion
(`can` versus do-support for `likes`). -/
def exHeCan : EDoc := .mk
  [mkTok 0 "He" " " "PRP" "PRON"
     [("Case", "Nom"), ("Gender", "Masc"), ("Number", "Sing"), ("Person", "3")]
     "he" "nsubj" 2,
   mkTok 1 "can" " " "MD" "AUX" [("VerbForm", "Fin")] "can" "aux" 2,
   mkTok 2 "go" " " "VB" "VERB" [("VerbForm", "Fin")] "go" "ROOT" 2,
   mkTok 3 "and" " " "CC" "CCONJ" [("ConjType", "Cmp")] "and" "cc" 2,
   mkTok 4 "likes" " " "VBZ" "VERB"
     [("Number", "Sing"), ("Tense", "Pres"), ("VerbForm", "Fin")] "like" "conj" 2,
   mkTok 5 "swimming" "" "NN" "NOUN" [("Number", "Sing")] "swimming" "dobj" 4,
   mkTok 6 "." "" "." "PUNCT" [("PunctType", "Peri")] "." "punct" 2] none

/-- "The key doors are red ." — `doors` is an appositional head noun at the
position immediately after the subject head noun `key` and before the main
verb `are`. -/
def exKey : EDoc := .mk
  [mkTok 0 "The" " " "DT" "DET" [("Definite", "Def"), ("PronType", "Art")] "the" "det" 1,
   mkTok 1 "key" " " "NN" "NOUN" [("Number", "Sing")] "key" "nsubj" 3,
   mkTok 2 "doors" " " "NNS" "NOUN" [("Number", "Plur")] "door" "appos" 1,
   mkTok 3 "are" " " "VBP" "AUX"
     [("Mood", "Ind"), ("Tense", "Pres"), ("VerbForm", "Fin"), ("Number", "Plur")]
     "be" "ROOT" 3,
   mkTok 4 "red" " " "JJ" "ADJ" [("Degree", "Pos")] "red" "acomp" 3,
   mkTok 5 "." "" "." "PUNCT" [("PunctType", "Peri")] "." "punct" 3] none

/-- A three-token document for the Remove head-redirection check. -/
def exABC : EDoc := .mk
  [mkTok 0 "Aa" " " "NN" "NOUN" [] "aa" "ROOT" 0,
   mkTok 1 "Bb" " " "NN" "NOUN" [] "bb" "dep" 0,
   mkTok 2 "Cc" "" "NN" "NOUN" [] "cc" "dep" 1] none

/-- "The cat and the dog sleep ." (conjoined main subject). -/
def exCats : EDoc := .mk
  [mkTok 0 "The" " " "DT" "DET" [("Definite", "Def"), ("PronType", "Art")] "the" "det" 1,
   mkTok 1 "cat" " " "NN" "NOUN" [("Number", "Sing")] "cat" "nsubj" 5,
   mkTok 2 "and" " " "CC" "CCONJ" [("ConjType", "Cmp")] "and" "cc" 1,
   mkTok 3 "the" " " "DT" "DET" [("Definite", "Def"), ("PronType", "Art")] "the" "det" 4,
   mkTok 4 "dog" " " "NN" "NOUN" [("Number", "Sing")] "dog" "conj" 1,
   mkTok 5 "sleep" "" "VBP" "VERB"
     [("Tense", "Pres"), ("VerbForm", "Fin"), ("Number", "Plur")] "sleep" "ROOT" 5,
   mkTok 6 "." "" "." "PUNCT" [("PunctType", "Peri")] "." "punct" 5] none

/-- "He used to party ." — the *used to* idiom: `used` takes an `xcomp`
infinitival complement. -/
def exUsed : EDoc := .mk
  [mkTok 0 "He" " " "PRP" "PRON"
     [("Case", "Nom"), ("Gender", "Masc"), ("Number", "Sing"), ("Person", "3")]
     "he" "nsubj" 1,
   mkTok 1 "used" " " "VBD" "VERB" [("Tense", "Past"), ("VerbForm", "Fin")] "use" "ROOT" 1,
   mkTok 2 "to" " " "TO" "PART" [] "to" "aux" 3,
   mkTok 3 "party" " " "VB" "VERB" [("VerbForm", "Inf")] "party" "xcomp" 1,
   mkTok 4 "." "" "." "PUNCT" [("PunctType", "Peri")] "." "punct" 1] none

/-- The `used` token of `exUsed`. -/
def usedTok : Tok :=
  mkTok 1 "used" " " "VBD" "VERB" [("Tense", "Past"), ("VerbForm", "Fin")] "use" "ROOT" 1

/-! ### Claim-side comparison definitions (refinement checks). -/

/-- Modelled on claim C2's wording: from the root, repeatedly descend to the
first child bearing an `aux` or `auxpass` dependency until no such child
remains. -/
def specAuxDescend (d : EDoc) : Nat → Tok → Tok
  | 0, v => v
  | fuel+1, v =>
    match (childrenOf d v).find? (fun c => c.dep_ == "aux" || c.dep_ == "auxpass") with
    | none => v
    | some c => specAuxDescend d fuel c

/-- Modelled on claim C6's wording: the tokens whose positions lie strictly
between the last position of the (possibly partitive-expanded) main subject
and the main verb's position and that pass the head-noun filter
(`NOUN`/`PROPN`, not in a compound, not a nested partitive head,
deduplicated over adjacent identical tag/POS runs). -/
def claimInterveners (d : EDoc) : Exc (List Tok) := do
  let sv ← main_subject d
  let s : List (Option Tok) := match sv with
    | none => [none]
    | some (.one t) => [some t]
    | some (.many l) => l.map some
  let anyPart ← excAnyM (fun t? => match t? with
    | none => throw "AttributeError: NoneType has no attribute text"
    | some t => pure (ALL_PARTITIVES.contains t.text)) s
  let lastPos? ←
    if anyPart then do
      let sT ← excMapM (fun t? => match t? with
        | none => throw "AttributeError: NoneType has no attribute text"
        | some t => pure t) s
      let parts := sT.filter (fun t => ALL_PARTITIVES.contains t.text)
      let mut ext : List TokOrList := []
      for p in parts do
        ext := ext ++ [← get_partitive_head_noun d (docFuel d) p]
      pure (some (← pyMaxI (sT ++ flattenTL ext)))
    else
      match sv with
      | none => pure none
      | some (.one t) => pure (some t.i)
      | some (.many l) => do pure (some (← pyMaxI l))
  match lastPos? with
  | none => pure []
  | some lastPos =>
    match ← main_verb d with
    | none => pure []
    | some v =>
      let strict := d.toks.filter (fun t => lastPos < t.i && t.i < v.i)
      pure (if strict.isEmpty then strict else intervFilter d strict)

/-- The `doors` token of `exKey`. -/
def doorsTok : Tok := mkTok 2 "doors" " " "NNS" "NOUN" [("Number", "Plur")] "door" "appos" 1

/-! ### Claim theorems. -/

/-- A document whose `previous` points at `d` is a different document from
`d`: the history chain is strictly nested. -/
theorem previous_ne (x y : EDoc) (h : x.previous = some y) : x ≠ y := by
  intro heq
  subst heq
  cases x with
  | mk toks prev =>
    simp only [EDoc.previous] at h
    have hs := congrArg sizeOf h
    simp at hs
    omega

/-- C1: each of the three editing operations is pure copy-on-write — any
document it successfully returns is a new document (distinct from the
input) whose `previous` back-reference is the unchanged input document;
the input itself is an immutable value throughout. -/
theorem editing_ops_pure (d e : EDoc) (tokens : List Tok) (indices : Option (List Nat))
    (ri rm : IdxArg) (tok : Tok) (idx : Nat) :
    (copy_with_replace d tokens indices = .ok e → e.previous = some d ∧ e ≠ d) ∧
    (copy_with_remove d ri rm = .ok e → e.previous = some d ∧ e ≠ d) ∧
    (copy_with_add d tok idx = .ok e → e.previous = some d ∧ e ≠ d) := by
  refine ⟨?_, ?_, ?_⟩ <;> intro h
  · unfold copy_with_replace at h
    simp only [Bind.bind, Except.bind, pure, Except.pure, throw, throwThe,
      MonadExceptOf.throw] at h
    repeat' split at h
    all_goals first | simp at h | skip
    all_goals subst h
    all_goals exact ⟨rfl, previous_ne _ _ rfl⟩
  · unfold copy_with_remove at h
    simp only [Bind.bind, Except.bind, pure, Except.pure, throw, throwThe,
      MonadExceptOf.throw] at h
    repeat' split at h
    all_goals first | simp at h | skip
    all_goals subst h
    all_goals exact ⟨rfl, previous_ne _ _ rfl⟩
  · unfold copy_with_add at h
    simp only [Bind.bind, Except.bind, pure, Except.pure, throw, throwThe,
      MonadExceptOf.throw] at h
    repeat' split at h
    all_goals first | simp at h | skip
    all_goals subst h
    all_goals exact ⟨rfl, previous_ne _ _ rfl⟩

/-- An adjective token insertable into `exDogPast` at position 1. -/
def bigTok : Tok := mkTok 1 "big" " " "JJ" "ADJ" [("Degree", "Pos")] "big" "amod" 1

/-- C1 witness: a replace, a remove and an insert on `The dog slept .` each
succeed and return a fresh document chained to the input. -/
theorem editing_ops_pure_witness :
    (∃ e, copy_with_replace exDogPast [bigTok] none = .ok e ∧
      e.previous = some exDogPast ∧ e ≠ exDogPast) ∧
    (∃ e, copy_with_remove exDogPast (.int 0) (.int 1) = .ok e ∧
      e.previous = some exDogPast ∧ e ≠ exDogPast) ∧
    (∃ e, copy_with_add exDogPast bigTok 1 = .ok e ∧
      e.previous = some exDogPast ∧ e ≠ exDogPast) :=
  ⟨⟨_, rfl, (editing_ops_pure exDogPast _ [bigTok] none (.int 0) (.int 1) bigTok 1).1 rfl⟩,
   ⟨_, rfl, (editing_ops_pure exDogPast _ [bigTok] none (.int 0) (.int 1) bigTok 1).2.1 rfl⟩,
   ⟨_, rfl, (editing_ops_pure exDogPast _ [bigTok] none (.int 0) (.int 1) bigTok 1).2.2 rfl⟩⟩

/-- C4: reinflecting the `xcomp`-taking verb `used` to the present tense is
rejected only when the tense is passed as the canonical `pattern.en`
constant `present`; the `TENSE_MAP` alias `Pres` — accepted everywhere else
in the engine — bypasses the guard (it compares `tense == PRESENT` before
normalization) and the repository's own `CONJUGATE_MAP` entry for `used`
then produces the present-tense surface form `use`, which the source's own
comment says must never be produced. -/
theorem used_to_present_reinflection :
    (reinflect extStub exUsed usedTok (some "Plur") (some "Pres") []).map
      (fun t => (t.text, get_morph t "Tense", t.tag_)) = .ok ("use", some "Pres", "VBP") ∧
    reinflect extStub exUsed usedTok (some "Plur") (some "present") [] =
      .error "ValueError: used to cannot be made present tense" := by
  exact ⟨rfl, rfl⟩

/-- C6: on `exKey` the code computes no interveners at all, although the
claim's strictly-between reading admits the appositional head noun `doors`
that immediately follows the subject: the non-partitive branch starts the
slice at `_main_subject_index + 1 = (subject position + 1) + 1`, skipping
the position right after the subject. -/
theorem interveners_skip_adjacent_noun :
    main_subject_verb_interveners exKey = .ok [] ∧
    claimInterveners exKey = .ok [doorsTok] := by
  exact ⟨rfl, rfl⟩

/-- C7: removing position 1 with the substitute position given as the list
`[0]` leaves the surviving token `Cc` pointing at position 1 (itself)
instead of the requested substitute 0: line 803 replaces a list-valued
`move_deps_to` with `indices` itself. -/
theorem remove_head_redirection :
    (copy_with_remove exABC (.list [1]) (.list [0])).map
      (fun e => e.toks.map (fun t => (t.text, t.head))) =
      .ok [("Aa", 0), ("Cc", 1)] := by
  exact rfl

/-- C8 counterexample: renumbering the conjoined-subject sentence
`The cat and the dog sleep .` to singular raises (the conjunction-removal
helper calls `_copy_with_remove` without its required `move_deps_to`
argument) instead of returning a new `Sentence`. -/
theorem renumber_conjoined_singular_cex :
    renumber_main_subject extStub exCats "Sing" =
      .error "TypeError: _copy_with_remove missing 1 required positional argument: move_deps_to" := by
  exact rfl

/-- C8 amended: the wrappers return a new `Sentence` only on the plain
paths; renumbering a conjoined main subject to singular always raises the
`TypeError` of the missing `move_deps_to` argument in
`_remove_conjunctions_to_main_subject`, and the partitive-removal helper
unconditionally raises `NotImplementedError`. -/
theorem renumber_conjoined_singular_raises (ext : Ext) (d : EDoc) (number : String)
    (a b : Tok) (rest : List Tok)
    (hms : main_subject d = .ok (some (.many (a :: b :: rest))))
    (hconj : has_conjoined_main_subject d = .ok true)
    (hsg : dget NUMBER_MAP number = some SG) :
    renumber_main_subject ext d number =
      .error "TypeError: _copy_with_remove missing 1 required positional argument: move_deps_to" ∧
    remove_partitive_from_main_subject d =
      .error "NotImplementedError: cannot currently renumber sentences with a partitive subject" := by
  refine ⟨?_, rfl⟩
  unfold renumber_main_subject remove_conjunctions_to_main_subject
  simp only [hconj, hms, hsg, Bind.bind, Except.bind, pure, Except.pure, throw, throwThe,
    MonadExceptOf.throw, pyNth, pyMaxI, List.get?, List.map_cons, List.drop,
    Bool.true_and, beq_self_eq_true, Bool.not_true, if_true, if_false]
  simp only [Bool.false_eq_true, if_false]

/-- The `cat` token of `exCats`. -/
def catTok : Tok := mkTok 1 "cat" " " "NN" "NOUN" [("Number", "Sing")] "cat" "nsubj" 5

/-- The `dog` token of `exCats`. -/
def dogTok : Tok := mkTok 4 "dog" " " "NN" "NOUN" [("Number", "Sing")] "dog" "conj" 1

/-- C8 witness: on `The cat and the dog sleep .` the conjoined subject is
`[cat, dog]` and renumbering to singular raises the `TypeError`. -/
theorem renumber_conjoined_singular_raises_witness :
    renumber_main_subject extStub exCats "Sing" =
      .error "TypeError: _copy_with_remove missing 1 required positional argument: move_deps_to" ∧
    remove_partitive_from_main_subject exCats =
      .error "NotImplementedError: cannot currently renumber sentences with a partitive subject" :=
  renumber_conjoined_singular_raises extStub exCats "Sing" catTok dogTok [] rfl rfl rfl

/-- C9 counterexample: the string `" The dog barked."` is accepted by both
the generic and the English string-phase filters, yet its first character
is a space — not an uppercase letter. -/
theorem string_filter_nonupper_accepted_cex :
    string_conditions " The dog barked." = .ok true ∧
    en_string_conditions " The dog barked." = .ok (some " The dog barked.") ∧
    pyStrHead " The dog barked." = .ok ' ' ∧
    Char.isUpper ' ' = false := by
  exact ⟨rfl, rfl, rfl, rfl⟩

/-- C9 amended: what the filters actually guarantee is weaker than the
claim — an accepted string's first character is merely not a *lowercase*
letter (it can be a space or a digit), and its first whitespace-separated
word is not all-caps; acceptance by the English filter entails acceptance
by the generic one. -/
theorem string_filter_accepted_not_lowercase (s : String) :
    (string_conditions s = .ok true →
      ∃ c, pyStrHead s = .ok c ∧ c.isLower = false ∧
        ∃ w, pyNth (pySplitWs s) 0 = .ok w ∧ pyIsUpperStr w = false) ∧
    (∀ r, en_string_conditions s = .ok (some r) → string_conditions s = .ok true) := by
  constructor
  · intro h
    unfold string_conditions at h
    simp only [Bind.bind, Except.bind, pure, Except.pure] at h
    by_cases h1 : s.length < MIN_SENTENCE_LENGTH_IN_CHARS
    · rw [if_pos h1] at h
      simp at h
    · rw [if_neg h1] at h
      cases hc : pyStrHead s with
      | error e => rw [hc] at h; simp at h
      | ok c0 =>
        rw [hc] at h
        cases hl : c0.isLower with
        | true => simp only [hl, if_true] at h; simp at h
        | false =>
          simp only [hl, Bool.false_eq_true, if_false] at h
          cases hw : pyNth (pySplitWs s) 0 with
          | error e => rw [hw] at h; simp at h
          | ok w0 =>
            rw [hw] at h
            cases hu : pyIsUpperStr w0 with
            | true => simp only [hu, if_true] at h; simp at h
            | false => exact ⟨c0, rfl, hl, w0, rfl, hu⟩
  · intro r hen
    unfold en_string_conditions at hen
    simp only [Bind.bind, Except.bind, pure, Except.pure] at hen
    cases hb : string_conditions s with
    | error e => rw [hb] at hen; simp at hen
    | ok b =>
      rw [hb] at hen
      cases b with
      | true => rfl
      | false => simp at hen

/-- C9 witness: the space-initial accepted string `" The dog barked."`
instantiates the amended guarantee, and its acceptance by the English
filter yields its acceptance by the generic filter. -/
theorem string_filter_accepted_not_lowercase_witness :
    (∃ c, pyStrHead " The dog barked." = .ok c ∧ c.isLower = false ∧
      ∃ w, pyNth (pySplitWs " The dog barked.") 0 = .ok w ∧ pyIsUpperStr w = false) ∧
    string_conditions " The dog barked." = .ok true :=
  ⟨(string_filter_accepted_not_lowercase " The dog barked.").1 rfl,
   (string_filter_accepted_not_lowercase " The dog barked.").2 " The dog barked." rfl⟩

/-- C5: a sentence whose main-clause verbs already carry the target tense is
returned unchanged (the source returns `self` before reinflecting), so the
rendered text is equal. -/
theorem reinflect_same_tense_id (ext : Ext) (d : EDoc) (vs : List Tok)
    (hvs : main_clause_verbs d = .ok vs) :
    ((∀ v ∈ vs, get_morph v "Tense" = some "Past") →
      ∃ e, make_main_verb_past_tense ext d = .ok e ∧ renderDoc e = renderDoc d) ∧
    ((∀ v ∈ vs, get_morph v "Tense" = some "Pres") →
      ∃ e, make_main_verb_present_tense ext d = .ok e ∧ renderDoc e = renderDoc d) := by
  constructor
  · intro h
    refine ⟨d, ?_, rfl⟩
    have hall : vs.all (fun v => get_morph v "Tense" == some "Past") = true := by
      rw [List.all_eq_true]
      intro v hv
      exact beq_iff_eq.mpr (h v hv)
    simp only [make_main_verb_past_tense, hvs, Bind.bind, Except.bind]
    rw [if_pos hall]
    rfl
  · intro h
    refine ⟨d, ?_, rfl⟩
    have hall : vs.all (fun v => get_morph v "Tense" == some "Pres") = true := by
      rw [List.all_eq_true]
      intro v hv
      exact beq_iff_eq.mpr (h v hv)
    simp only [make_main_verb_present_tense, hvs, Bind.bind, Except.bind]
    rw [if_pos hall]
    rfl

/-- The `slept` token of `exDogPast`. -/
def sleptTok : Tok :=
  mkTok 2 "slept" "" "VBD" "VERB" [("Tense", "Past"), ("VerbForm", "Fin")] "sleep" "ROOT" 2

/-- The `sleeps` token of `exDogPres`. -/
def sleepsTok : Tok :=
  mkTok 2 "sleeps" "" "VBZ" "VERB"
    [("Number", "Sing"), ("Tense", "Pres"), ("VerbForm", "Fin")] "sleep" "ROOT" 2

/-- C5 witness: `The dog slept .` converted to past and `The dog sleeps .`
converted to present both come back with the same rendered text. -/
theorem reinflect_same_tense_id_witness :
    (∃ e, make_main_verb_past_tense extStub exDogPast = .ok e ∧
      renderDoc e = renderDoc exDogPast) ∧
    (∃ e, make_main_verb_present_tense extStub exDogPres = .ok e ∧
      renderDoc e = renderDoc exDogPres) := by
  exact ⟨(reinflect_same_tense_id extStub exDogPast [sleptTok] rfl).1 (by decide),
         (reinflect_same_tense_id extStub exDogPres [sleepsTok] rfl).2 (by decide)⟩

/-- Success of the distractor-determiner computation follows from success of
the distractor computation (they share the number and intervener
subcomputations). -/
theorem distractors_ok_dets_ok (d : EDoc) (ds : List Tok)
    (hds : main_subject_verb_distractors d = .ok ds) :
    ∃ dd, main_subject_verb_distractors_determiners d = .ok dd := by
  unfold main_subject_verb_distractors at hds
  unfold main_subject_verb_distractors_determiners
  cases hn : main_subject_number d with
  | error e =>
    rw [hn] at hds
    simp [Bind.bind, Except.bind] at hds
  | ok n =>
    rw [hn] at hds
    cases hiv : main_subject_verb_interveners d with
    | error e =>
      rw [hiv] at hds
      simp [Bind.bind, Except.bind] at hds
    | ok iv =>
      simp only [Bind.bind, Except.bind, hn, hiv]
      exact ⟨_, rfl⟩

/-- C10: renumbering the subject-verb distractors returns a new sentence
exactly when there is at least one distractor, and `None` otherwise; the
singularize/pluralize wrappers are the `SG`/`PL` instances. -/
theorem excMapM_cons_ok (f : α → Exc β) (a : α) (as : List α) (bl : List β)
    (h : excMapM f (a :: as) = .ok bl) : ∃ b bs, bl = b :: bs := by
  unfold excMapM at h
  cases h1 : f a with
  | error e => rw [h1] at h; simp [Bind.bind, Except.bind] at h
  | ok b =>
    rw [h1] at h
    cases h2 : excMapM f as with
    | error e => rw [h2] at h; simp [Bind.bind, Except.bind] at h
    | ok bs =>
      rw [h2] at h
      simp [Bind.bind, Except.bind, pure, Except.pure] at h
      exact ⟨b, bs, h.symm⟩

/-- C10: renumbering the subject-verb distractors returns a new sentence
only when there is at least one distractor, and returns `None` when there
are none; the singularize/pluralize wrappers are the `SG`/`PL` instances. -/
theorem renumber_distractors_none_iff (ext : Ext) (d : EDoc) (number nm : String)
    (ds dds dds2 : List Tok)
    (hnum : dget NUMBER_MAP number = some nm)
    (hds : main_subject_verb_distractors d = .ok ds)
    (hdd : main_subject_verb_distractors_determiners d = .ok dds)
    (hdd2 : excMapM (cond (nm == SG) (singularizeTok ext)
        (cond (nm == PL) (pluralizeTok ext) (fun _ => .error "NameError: f is not defined"))) dds =
      .ok dds2) :
    ((renumber_main_subject_verb_distractors ext d number = .ok none) ↔ ds = []) ∧
    singularize_main_subject_verb_distractors ext d =
      renumber_main_subject_verb_distractors ext d SG ∧
    pluralize_main_subject_verb_distractors ext d =
      renumber_main_subject_verb_distractors ext d PL := by
  refine ⟨?_, rfl, rfl⟩
  unfold renumber_main_subject_verb_distractors
  rw [hnum]
  simp only [Bind.bind, Except.bind, pure, Except.pure, hds, hdd]
  cases ds with
  | nil =>
    simp only [excMapM]
    rw [hdd2]
    simp
  | cons t ts =>
    constructor
    · intro hok
      exfalso
      cases hmap : excMapM (cond (nm == SG) (singularizeTok ext)
          (cond (nm == PL) (pluralizeTok ext) (fun _ => .error "NameError: f is not defined")))
          (t :: ts) with
      | error e =>
        rw [hmap] at hok
        simp at hok
      | ok ds2 =>
        rw [hmap] at hok
        obtain ⟨b, bs, rfl⟩ := excMapM_cons_ok _ _ _ _ hmap
        rw [hdd2] at hok
        simp only [List.isEmpty_cons, Bool.not_false, if_true] at hok
        cases hcp : copy_with_replace d ((b :: bs) ++ dds2) none with
        | error e =>
          rw [hcp] at hok
          simp [Bind.bind, Except.bind] at hok
        | ok e =>
          rw [hcp] at hok
          simp [Bind.bind, Except.bind, pure, Except.pure] at hok
    · intro h
      exact absurd h (by simp)

/-- C10 witness: `The dog sleeps .` has no distractors, and renumbering its
distractors returns `None`. -/
theorem renumber_distractors_none_iff_witness :
    renumber_main_subject_verb_distractors extStub exDogPres "Sing" = .ok none :=
  (renumber_distractors_none_iff extStub exDogPres "Sing" SG [] [] []
    rfl rfl rfl rfl).1.mpr rfl

/-- The auxiliary-descent loop agrees with the claim-side descent. -/
theorem aux_descend_spec (d : EDoc) : ∀ (n : Nat) (v t : Tok),
    aux_descend d n v = .ok t → t = specAuxDescend d n v := by
  intro n
  induction n with
  | zero => intro v t h; simp [aux_descend] at h
  | succ k ih =>
    intro v t h
    have hpred : (fun c : Tok => ["auxpass", "aux"].contains c.dep_) =
        (fun c : Tok => c.dep_ == "aux" || c.dep_ == "auxpass") := by
      funext c
      cases h1 : c.dep_ == "aux" <;> cases h2 : c.dep_ == "auxpass" <;>
        simp [List.contains, List.elem, h1, h2]
    unfold aux_descend at h
    unfold specAuxDescend
    rw [hpred] at h
    cases hf : (childrenOf d v).find? (fun c => c.dep_ == "aux" || c.dep_ == "auxpass") with
    | none =>
      rw [hf] at h
      cases h
      rfl
    | some c =>
      rw [hf] at h
      exact ih c t h

/-- C2: with a root present, main-verb resolution yields nothing exactly
when the root is neither a verb nor an auxiliary; otherwise any resolved
main verb is the token reached from the root by repeatedly descending to
the first child bearing an `aux`/`auxpass` dependency. -/
theorem main_verb_resolution (d : EDoc) (r : Tok) (x : Option Tok)
    (hr : rootOf d = some r) (hmv : main_verb d = .ok x) :
    (x = none ↔ (is_verb r || is_aux r) = false) ∧
    (∀ t, x = some t → t = specAuxDescend d (docFuel d) r) := by
  unfold main_verb root_is_verb at hmv
  rw [hr] at hmv
  dsimp only at hmv
  cases hv : (is_verb r || is_aux r) with
  | false =>
    rw [hv] at hmv
    simp [pure, Except.pure] at hmv
    subst hmv
    exact ⟨by simp, by intro t ht; cases ht⟩
  | true =>
    rw [hv] at hmv
    simp only [if_true] at hmv
    cases ha : aux_descend d (docFuel d) r with
    | error e =>
      rw [ha] at hmv
      simp [Bind.bind, Except.bind] at hmv
    | ok t0 =>
      rw [ha] at hmv
      simp [Bind.bind, Except.bind, pure, Except.pure] at hmv
      subst hmv
      refine ⟨by simp, ?_⟩
      intro t ht
      cases ht
      exact aux_descend_spec d (docFuel d) r t0 ha

/-- The `eaten` token of `exCake`. -/
def eatenTok : Tok :=
  mkTok 3 "eaten" "" "VBN" "VERB" [("Aspect", "Perf"), ("VerbForm", "Part")] "eat" "ROOT" 3

/-- The `was` token of `exCake`. -/
def wasTok : Tok :=
  mkTok 2 "was" " " "VBD" "AUX"
    [("Mood", "Ind"), ("Tense", "Past"), ("VerbForm", "Fin"), ("Number", "Sing")]
    "be" "auxpass" 3

/-- The `Hello` token of `exHello`. -/
def helloTok : Tok := mkTok 0 "Hello" "" "UH" "INTJ" [] "hello" "ROOT" 0

/-- C2 witness: on the passive `The cake was eaten .` the resolved main verb
is the descent result `was`; on `Hello .` (non-verbal root) there is none. -/
theorem main_verb_resolution_witness :
    ((some wasTok : Option Tok) = none ↔ (is_verb eatenTok || is_aux eatenTok) = false) ∧
    wasTok = specAuxDescend exCake (docFuel exCake) eatenTok ∧
    ((none : Option Tok) = none ↔ (is_verb helloTok || is_aux helloTok) = false) :=
  ⟨(main_verb_resolution exCake eatenTok (some wasTok) rfl rfl).1,
   (main_verb_resolution exCake eatenTok (some wasTok) rfl rfl).2 wasTok rfl,
   (main_verb_resolution exHello helloTok none rfl rfl).1⟩

/-- C3: whenever the eligibility check completes and its own
auxiliary-requirement map assigns two or more distinct auxiliaries to one
subject position, `can_form_polar_question` answers `False`. -/
theorem polar_question_mixed_aux_rejected (d : EDoc) (b : Bool) (vs : List Tok)
    (m : List (Nat × List String))
    (hq : can_form_polar_question d = .ok b)
    (hvs : main_clause_verbs d = .ok vs)
    (hm : aux_lemma_map d vs = .ok (some m))
    (hmix : ∃ p ∈ m, 1 < p.2.length) :
    can_form_polar_question d = .ok false := by
  suffices hb : b = false by rw [hq, hb]
  unfold can_form_polar_question at hq
  simp only [Bind.bind, Except.bind, pure, Except.pure, throw, throwThe,
    MonadExceptOf.throw] at hq
  repeat' split at hq
  all_goals first
    | (injection hq with hb; exact hb.symm)
    | simp at hq
    | skip
  rename_i t1 hlast hpunct x2 vv hmcv hempty hapos x1 dl1 ss hcol hwhich hinf hinfl x0 dl0 mm hmeq hany
  rw [hvs] at hmcv
  injection hmcv with hvv
  subst hvv
  rw [hm] at hmeq
  injection hmeq with hmm
  injection hmm with hmm2
  subst hmm2
  obtain ⟨p, hp, hlen⟩ := hmix
  exact absurd (List.any_eq_true.mpr ⟨p, hp, decide_eq_true hlen⟩) hany

/-- The `can` token of `exHeCan`. -/
def canTok : Tok := mkTok 1 "can" " " "MD" "AUX" [("VerbForm", "Fin")] "can" "aux" 2

/-- The `likes` token of `exHeCan`. -/
def likesTok : Tok :=
  mkTok 4 "likes" " " "VBZ" "VERB"
    [("Number", "Sing"), ("Tense", "Pres"), ("VerbForm", "Fin")] "like" "conj" 2

/-- C3 witness: on `He can go and likes swimming .` the auxiliary map pairs
the shared subject position 0 with the two distinct requirements `can_AUX`
and `do_AUX`, and the eligibility check answers `False`. -/
theorem polar_question_mixed_aux_rejected_witness :
    can_form_polar_question exHeCan = .ok false :=
  polar_question_mixed_aux_rejected exHeCan false [canTok, likesTok]
    [(0, ["can_AUX", "do_AUX"])] rfl rfl rfl (by decide)

end AgrAttr
